import Mathlib

/-!
Verification development for the project-reorganization script
(`new_structure.py`).  The script is a sequential batch job over the local
filesystem: it validates the environment, checks disk space, snapshots the
`src` tree into a backup, creates a fixed directory skeleton, applies a fixed
old-path-to-new-path move mapping, re-buckets loose CSS files under
`src/styles`, and prints a final report; an unhandled exception during the
migration phase triggers a restore from the backup.

The filesystem is embedded shallowly:
* a state (`FileSys`) is an association list of file paths to contents, a
  list of existing directories, and an optional backup snapshot (the backup
  directory lives outside `src`, under a timestamped name, so it is kept as
  a separate component);
* `os.path.exists` is `pathExists` (file or directory), `os.path.isdir`
  checks the directory list, `os.makedirs` fails when a path component is an
  existing plain file;
* `shutil.move` on a file erases the source key and writes the destination
  key (overwriting an existing destination file, as `os.rename` does);
* fallible operations return `Option`, and Python's `ZeroDivisionError` in
  `generate_report` is the `none` branch of the report;
* `main`'s plain `return` paths end the process with exit status 0, the
  `sys.exit(1)` guard and an uncaught exception end it with exit status 1;
* the only nondeterminism we keep is an optional injected failure
  (`failAfter`) inside the move loop, used to study the rollback path, and
  the free-space number of the volume, which is a parameter.

String and path helpers are recomputed on `List Char` so that every
definition evaluates by kernel reduction.
-/

/-! ## Character-list string helpers -/

/-- Does the needle occur at the front of the haystack? -/
def chStarts : List Char → List Char → Bool
  | [], _ => true
  | _ :: _, [] => false
  | a :: as, b :: bs => a == b && chStarts as bs

/-- Does the needle occur anywhere inside the haystack
(Python's `needle in hay`)? -/
def chContains (needle : List Char) : List Char → Bool
  | [] => chStarts needle []
  | b :: bs => chStarts needle (b :: bs) || chContains needle bs

/-- Python `sub in hay` on strings. -/
def strContains (hay sub : String) : Bool := chContains sub.data hay.data

/-- Python `s.startswith(pre)`. -/
def strStarts (s pre : String) : Bool := chStarts pre.data s.data

/-- Python `s.endswith(suf)`. -/
def strEnds (s suf : String) : Bool := chStarts suf.data.reverse s.data.reverse

/-- Python `s.lower()`. -/
def strLower (s : String) : String := String.mk (s.data.map Char.toLower)

/-- Split a character list on `/` (the pieces, in order, without the
separators).  Never returns the empty list. -/
def pathParts : List Char → List (List Char)
  | [] => [[]]
  | c :: rest =>
    match pathParts rest with
    | [] => if c = '/' then [[], []] else [[c]]
    | h :: t => if c = '/' then [] :: h :: t else (c :: h) :: t

/-- Rejoin pieces with `/` separators. -/
def joinParts : List (List Char) → List Char
  | [] => []
  | [p] => p
  | p :: q :: t => p ++ '/' :: joinParts (q :: t)

/-- Python `os.path.dirname`. -/
def dirname (p : String) : String :=
  String.mk (joinParts (pathParts p.data).dropLast)

/-- All component-wise prefixes of a path, shortest first, ending with the
path itself: `ancestors "a/b/c" = ["a", "a/b", "a/b/c"]`. -/
def ancestors (p : String) : List String :=
  (List.range (pathParts p.data).length).map
    (fun i => String.mk (joinParts ((pathParts p.data).take (i + 1))))

/-- Does the string contain a dot?  Every mapped file path does; every
directory the script ever creates does not. -/
def hasDot (s : String) : Bool := s.data.contains '.'

/-! ## Filesystem state -/

/-- Lookup in an association list of paths to file contents. -/
def fsLookup : List (String × String) → String → Option String
  | [], _ => none
  | e :: rest, p => if e.1 = p then some e.2 else fsLookup rest p

/-- Is there a file at `p`? -/
def fsExists (fs : List (String × String)) (p : String) : Bool :=
  (fsLookup fs p).isSome

/-- Remove every entry for path `p`. -/
def fsErase (fs : List (String × String)) (p : String) : List (String × String) :=
  fs.filter (fun e => !(e.1 == p))

/-- Write contents `c` at path `p` (overwriting). -/
def fsSet (fs : List (String × String)) (p c : String) : List (String × String) :=
  (p, c) :: fsErase fs p

/-- A filesystem state: files (path to contents), existing directories, and
the optional backup snapshot (files and directories of the copied `src`
tree; the backup directory itself lives outside `src`). -/
structure FileSys where
  files : List (String × String)
  dirs : List String
  backup : Option (List (String × String) × List String)
deriving DecidableEq, Repr

/-- Python `os.path.exists`: a file or a directory is present. -/
def pathExists (st : FileSys) (p : String) : Bool :=
  fsExists st.files p || st.dirs.contains p

/-- Python `os.path.isdir`. -/
def isdir (st : FileSys) (p : String) : Bool := st.dirs.contains p

/-- Python `os.path.isfile`. -/
def isfile (st : FileSys) (p : String) : Bool := fsExists st.files p

/-- Python `os.makedirs(p, exist_ok=True)`: a no-op when `p` is already a
directory; fails (`none`) when some component of `p` is an existing plain
file; otherwise records the new directory. -/
def makedirs (st : FileSys) (p : String) : Option FileSys :=
  if isdir st p then some st
  else if (ancestors p).any (fun a => isfile st a) then none
  else some { st with dirs := st.dirs ++ [p] }

/-! ## Static configuration data from the source -/

/-- `NEW_DIRS` from the source: the directory skeleton to create. -/
def NEW_DIRS : List String := [
  "src/types",
  "src/types/factions",
  "src/types/ships",
  "src/types/combat",
  "src/types/ui",
  "src/config",
  "src/config/factions",
  "src/config/ships",
  "src/config/combat",
  "src/config/game",
  "src/components",
  "src/components/ships",
  "src/components/ships/common",
  "src/components/ships/player",
  "src/components/ships/player/prefabs",
  "src/components/ships/player/controls",
  "src/components/ships/factions",
  "src/components/ships/factions/spaceRats",
  "src/components/ships/factions/lostNova",
  "src/components/ships/factions/equatorHorizon",
  "src/components/combat",
  "src/components/ui",
  "src/components/colony",
  "src/components/mining",
  "src/components/exploration",
  "src/components/visual",
  "src/components/debug",
  "src/effects",
  "src/effects/combat",
  "src/effects/visual",
  "src/effects/particles",
  "src/hooks",
  "src/hooks/factions",
  "src/hooks/combat",
  "src/hooks/ui",
  "src/hooks/game",
  "src/hooks/debug",
  "src/lib",
  "src/lib/factions",
  "src/lib/combat",
  "src/lib/ai",
  "src/lib/game",
  "src/utils",
  "src/utils/math",
  "src/utils/types",
  "src/contexts",
  "src/styles",
  "src/styles/components",
  "src/styles/effects",
  "src/styles/ui"]

/-- `FILE_MOVES` from the source: the old-path to new-path move mapping, in
insertion order of the Python dict. -/
def FILE_MOVES : List (String × String) := [
  ("src/components/factions/types/FactionTypes.ts", "src/types/factions/FactionTypes.ts"),
  ("src/components/factions/types/ShipTypes.ts", "src/types/ships/ShipTypes.ts"),
  ("src/components/factions/types/CombatTypes.ts", "src/types/combat/CombatTypes.ts"),
  ("src/components/factions/factionTypes/ship.ts", "src/types/ships/ship.ts"),
  ("src/components/factions/types/index.ts", "src/types/index.ts"),
  ("src/components/factions/types/common.ts", "src/types/common.ts"),
  ("src/components/factions/types/UITypes.ts", "src/types/ui/UITypes.ts"),
  ("src/components/factions/config/factionConfig.ts", "src/config/factions/factionConfig.ts"),
  ("src/components/factions/config/shipStats.ts", "src/config/ships/shipStats.ts"),
  ("src/components/factions/config/weaponConfig.ts", "src/config/combat/weaponConfig.ts"),
  ("src/components/factions/config/factionShipStats.ts", "src/config/factions/factionShipStats.ts"),
  ("src/config/playerShipStats.ts", "src/config/ships/playerShipStats.ts"),
  ("src/components/factions/ships/components/ShipBase.tsx", "src/components/ships/common/ShipBase.tsx"),
  ("src/components/factions/ships/components/WeaponMount.tsx", "src/components/ships/common/WeaponMount.tsx"),
  ("src/components/ships/common/ShipStats.tsx", "src/components/ships/common/ShipStats.tsx"),
  ("src/components/ships/common/ShipControls.tsx", "src/components/ships/common/ShipControls.tsx"),
  ("src/components/ships/common/ShipHealth.tsx", "src/components/ships/common/ShipHealth.tsx"),
  ("src/components/ships/common/ShipShields.tsx", "src/components/ships/common/ShipShields.tsx"),
  ("src/components/ships/common/ShipWeapons.tsx", "src/components/ships/common/ShipWeapons.tsx"),
  ("src/components/playerShips/WarShipCombat.tsx", "src/components/ships/player/WarShipCombat.tsx"),
  ("src/components/playerShips/PlayerShipControls.tsx", "src/components/ships/player/controls/PlayerShipControls.tsx"),
  ("src/components/playerShips/PlayerWeaponControls.tsx", "src/components/ships/player/controls/PlayerWeaponControls.tsx"),
  ("src/components/factions/ships/spaceRats/RatKing.tsx", "src/components/ships/factions/spaceRats/RatKing.tsx"),
  ("src/components/factions/ships/spaceRats/AsteroidMarauder.tsx", "src/components/ships/factions/spaceRats/AsteroidMarauder.tsx"),
  ("src/components/factions/ships/spaceRats/RogueNebula.tsx", "src/components/ships/factions/spaceRats/RogueNebula.tsx"),
  ("src/components/factions/ships/lostNova/EclipseScythe.tsx", "src/components/ships/factions/lostNova/EclipseScythe.tsx"),
  ("src/components/factions/ships/lostNova/DarkMatterReaper.tsx", "src/components/ships/factions/lostNova/DarkMatterReaper.tsx"),
  ("src/components/factions/ships/lostNova/NullHunter.tsx", "src/components/ships/factions/lostNova/NullHunter.tsx"),
  ("src/components/factions/ships/equatorHorizon/CelestialArbiter.tsx", "src/components/ships/factions/equatorHorizon/CelestialArbiter.tsx"),
  ("src/components/factions/ships/equatorHorizon/EtherealGalleon.tsx", "src/components/ships/factions/equatorHorizon/EtherealGalleon.tsx"),
  ("src/components/factions/ships/equatorHorizon/StellarEquinox.tsx", "src/components/ships/factions/equatorHorizon/StellarEquinox.tsx"),
  ("src/components/factions/FactionAI.tsx", "src/components/ships/factions/FactionAI.tsx"),
  ("src/components/factions/FactionFleet.tsx", "src/components/ships/factions/FactionFleet.tsx"),
  ("src/components/factions/FactionManager.tsx", "src/components/ships/factions/FactionManager.tsx"),
  ("src/components/factions/SpaceRatShip.tsx", "src/components/ships/factions/spaceRats/SpaceRatShip.tsx"),
  ("src/components/factions/LostNovaShip.tsx", "src/components/ships/factions/lostNova/LostNovaShip.tsx"),
  ("src/components/factions/EquatorHorizonShip.tsx", "src/components/ships/factions/equatorHorizon/EquatorHorizonShip.tsx"),
  ("src/components/combat/CombatManager.tsx", "src/components/combat/CombatManager.tsx"),
  ("src/components/combat/CombatUI.tsx", "src/components/combat/CombatUI.tsx"),
  ("src/components/combat/DamageIndicator.tsx", "src/components/combat/DamageIndicator.tsx"),
  ("src/components/combat/TargetingSystem.tsx", "src/components/combat/TargetingSystem.tsx"),
  ("src/components/combat/WeaponSystem.tsx", "src/components/combat/WeaponSystem.tsx"),
  ("src/components/combat/ShieldSystem.tsx", "src/components/combat/ShieldSystem.tsx"),
  ("src/components/combat/PowerSystem.tsx", "src/components/combat/PowerSystem.tsx"),
  ("src/components/combat/SalvageSystem.tsx", "src/components/combat/SalvageSystem.tsx"),
  ("src/components/ui/ShipCard.tsx", "src/components/ui/ShipCard.tsx"),
  ("src/components/ui/WeaponCard.tsx", "src/components/ui/WeaponCard.tsx"),
  ("src/components/ui/StatusBar.tsx", "src/components/ui/StatusBar.tsx"),
  ("src/components/ui/ResourceDisplay.tsx", "src/components/ui/ResourceDisplay.tsx"),
  ("src/components/ui/Tooltip.tsx", "src/components/ui/Tooltip.tsx"),
  ("src/components/ui/Modal.tsx", "src/components/ui/Modal.tsx"),
  ("src/components/effects/WeaponEffect.tsx", "src/effects/combat/WeaponEffect.tsx"),
  ("src/components/effects/ExplosionEffect.tsx", "src/effects/combat/ExplosionEffect.tsx"),
  ("src/components/effects/ShieldEffect.tsx", "src/effects/combat/ShieldEffect.tsx"),
  ("src/components/effects/ThrusterEffect.tsx", "src/effects/visual/ThrusterEffect.tsx"),
  ("src/components/effects/SmokeTrailEffect.tsx", "src/effects/visual/SmokeTrailEffect.tsx"),
  ("src/components/factions/factionHooks/useFactionBehavior.ts", "src/hooks/factions/useFactionBehavior.ts"),
  ("src/components/factions/factionHooks/useFactionAI.ts", "src/hooks/factions/useFactionAI.ts"),
  ("src/components/factions/factionHooks/useEnemyAI.ts", "src/hooks/factions/useEnemyAI.ts"),
  ("src/hooks/useFleetAI.ts", "src/hooks/factions/useFleetAI.ts"),
  ("src/hooks/useAdaptiveAI.ts", "src/hooks/factions/useAdaptiveAI.ts"),
  ("src/hooks/useCombatSystem.ts", "src/hooks/combat/useCombatSystem.ts"),
  ("src/hooks/useTooltip.ts", "src/hooks/ui/useTooltip.ts"),
  ("src/hooks/useGameState.ts", "src/hooks/game/useGameState.ts"),
  ("src/components/factions/factionLib/factionManager.ts", "src/lib/factions/factionManager.ts"),
  ("src/lib/combatManager.ts", "src/lib/combat/combatManager.ts"),
  ("src/lib/gameManager.ts", "src/lib/game/gameManager.ts"),
  ("src/lib/ai/behaviorTree.ts", "src/lib/ai/behaviorTree.ts"),
  ("src/lib/ai/pathfinding.ts", "src/lib/ai/pathfinding.ts"),
  ("src/lib/ai/decisionMaking.ts", "src/lib/ai/decisionMaking.ts"),
  ("src/lib/factions/factionAI.ts", "src/lib/factions/factionAI.ts"),
  ("src/lib/factions/fleetManager.ts", "src/lib/factions/fleetManager.ts"),
  ("src/lib/combat/weaponSystem.ts", "src/lib/combat/weaponSystem.ts"),
  ("src/lib/combat/damageCalculator.ts", "src/lib/combat/damageCalculator.ts"),
  ("src/lib/game/saveManager.ts", "src/lib/game/saveManager.ts"),
  ("src/lib/game/resourceManager.ts", "src/lib/game/resourceManager.ts"),
  ("src/utils/math.ts", "src/utils/math.ts"),
  ("src/utils/idGenerator.ts", "src/utils/idGenerator.ts"),
  ("src/utils/helpers.ts", "src/utils/helpers.ts"),
  ("src/utils/constants.ts", "src/utils/constants.ts"),
  ("src/utils/types.ts", "src/utils/types.ts"),
  ("src/contexts/GameContext.tsx", "src/contexts/GameContext.tsx"),
  ("src/contexts/ThresholdContext.tsx", "src/contexts/ThresholdContext.tsx"),
  ("src/contexts/CombatContext.tsx", "src/contexts/CombatContext.tsx"),
  ("src/contexts/FactionContext.tsx", "src/contexts/FactionContext.tsx")]

/-! ## Progress tracker and report -/

/-- `ProgressTracker` from the source. -/
structure ProgressTracker where
  total_operations : Nat
  completed_operations : Nat
  errors : List String
  warnings : List String
deriving DecidableEq, Repr

/-- A fresh tracker, as built at the start of `main`. -/
def ProgressTracker.init : ProgressTracker :=
  { total_operations := 0, completed_operations := 0, errors := [], warnings := [] }

/-- `ProgressTracker.add_error`. -/
def ProgressTracker.add_error (t : ProgressTracker) (m : String) : ProgressTracker :=
  { t with errors := t.errors ++ [m] }

/-- `ProgressTracker.add_warning`. -/
def ProgressTracker.add_warning (t : ProgressTracker) (m : String) : ProgressTracker :=
  { t with warnings := t.warnings ++ [m] }

/-- `ProgressTracker.increment`. -/
def ProgressTracker.increment (t : ProgressTracker) : ProgressTracker :=
  { t with completed_operations := t.completed_operations + 1 }

/-- `ProgressTracker.set_total`. -/
def ProgressTracker.set_total (t : ProgressTracker) (n : Nat) : ProgressTracker :=
  { t with total_operations := n }

/-- The data of the final report (the rendered strings are elided; the
success rate is the exact rational the format string would print). -/
structure FinalReport where
  total_operations : Nat
  completed_operations : Nat
  success_rate : Rat
  errors : List String
  warnings : List String
deriving DecidableEq, Repr

/-- `ProgressTracker.generate_report`.  The source divides by
`total_operations` without a guard, so a zero total raises
`ZeroDivisionError`: that exceptional outcome is the `none` branch. -/
def generate_report (t : ProgressTracker) : Option FinalReport :=
  if t.total_operations = 0 then none
  else some
    { total_operations := t.total_operations,
      completed_operations := t.completed_operations,
      success_rate := ((t.completed_operations : Rat) / (t.total_operations : Rat)) * 100,
      errors := t.errors,
      warnings := t.warnings }

/-! ## The file mover and the migration phases -/

/-- `move_file` from the source: warn and skip when the source is absent;
ensure the destination's parent directory (failure of `makedirs` is recorded
as an error against the pair and the item is skipped); in dry-run mode count
the operation without mutating anything; otherwise perform the move. -/
def move_file (src dst : String) (dry_run : Bool) (st : FileSys)
    (progress : ProgressTracker) : FileSys × ProgressTracker :=
  if !pathExists st src then
    (st, progress.add_warning ("Source file not found (skipped): " ++ src))
  else
    let dst_dir := dirname dst
    match (if isdir st dst_dir || dry_run then some st else makedirs st dst_dir) with
    | none => (st, progress.add_error ("Error creating destination directory " ++ dst_dir))
    | some st1 =>
      if dry_run then (st1, progress.increment)
      else
        ({ st1 with files := fsSet (fsErase st1.files src) dst ((fsLookup st1.files src).getD "") },
         progress.increment)

/-- Iterate `move_file` over a list of pairs (the loop bodies of
`process_file_moves` and `reorganize_styles`). -/
def run_moves (dry_run : Bool) (moves : List (String × String))
    (st : FileSys) (progress : ProgressTracker) : FileSys × ProgressTracker :=
  moves.foldl (fun acc pr => move_file pr.1 pr.2 dry_run acc.1 acc.2) (st, progress)

/-- The actionable subset of the mapping computed by `process_file_moves`:
source present, destination absent (`os.path.exists` on both sides). -/
def moves_needed (st : FileSys) : List (String × String) :=
  FILE_MOVES.filter (fun pr => pathExists st pr.1 && !pathExists st pr.2)

/-- `process_file_moves`: set the total to the number of actionable moves,
then run them.  `failAfter = some k` injects an unhandled exception after
`k` processed items (used to study the rollback path); the `Except.error`
payload is the state at the instant the exception escapes. -/
def process_file_moves (dry_run : Bool) (failAfter : Option Nat) (st : FileSys)
    (progress : ProgressTracker) :
    Except (FileSys × ProgressTracker) (FileSys × ProgressTracker) :=
  let L := moves_needed st
  let progress := progress.set_total L.length
  match failAfter with
  | some k =>
    if k < L.length then Except.error (run_moves dry_run (L.take k) st progress)
    else Except.ok (run_moves dry_run L st progress)
  | none => Except.ok (run_moves dry_run L st progress)

/-- The fixed style root `os.path.join("src", "styles")`. -/
def styles_root : String := "src/styles"

/-- The names listed directly under `src/styles` that are plain files ending
in `.css` (case-insensitively): the scan of `reorganize_styles`.  Derived
from the file table: a key of the form `src/styles/<name>` with no further
slash in `<name>`. -/
def top_css_entry (e : String × String) : Option String :=
  let cs := e.1.data
  if chStarts ("src/styles/".data) cs
      && !((cs.drop 11).contains '/')
      && !((cs.drop 11).isEmpty)
      && strEnds (strLower (String.mk (cs.drop 11))) ".css"
  then some (String.mk (cs.drop 11)) else none

def top_css_names (fs : List (String × String)) : List String :=
  fs.filterMap top_css_entry

/-- The classification of one CSS file name in `reorganize_styles`, in the
source's priority order. -/
def css_bucket (name : String) : String :=
  let lower_name := strLower name
  if strContains lower_name "effects" || strContains lower_name "vpr-effects" then "effects"
  else if strContains lower_name "ui" || strContains lower_name "vpr-system" then "ui"
  else "components"

/-- The move list of `reorganize_styles`: for each bucket in dict insertion
order (`effects`, `ui`, `components`), the scanned names classified into it,
each moved from `src/styles/<name>` to `src/styles/<bucket>/<name>`. -/
def style_moves_list (names : List String) : List (String × String) :=
  (["effects", "ui", "components"].map (fun cat =>
    (names.filter (fun n => css_bucket n == cat)).map
      (fun n => ("src/styles/" ++ n, "src/styles/" ++ cat ++ "/" ++ n)))).flatten

/-- `reorganize_styles`: warn when the styles root is missing; otherwise
count the loose CSS files into the running total, classify them, and move
each into its bucket via the file mover. -/
def reorganize_styles (dry_run : Bool) (st : FileSys) (progress : ProgressTracker) :
    FileSys × ProgressTracker :=
  if !isdir st styles_root then
    (st, progress.add_warning ("Styles folder not found: " ++ styles_root))
  else
    let names := top_css_names st.files
    let progress := progress.set_total (progress.total_operations + names.length)
    run_moves dry_run (style_moves_list names) st progress

/-- `create_new_directories`: in dry-run mode only log; otherwise create
each missing skeleton directory, logging (but not tracking) any failure. -/
def create_new_directories (dry_run : Bool) (st : FileSys) : FileSys :=
  if dry_run then st
  else NEW_DIRS.foldl (fun s d => if isdir s d then s else (makedirs s d).getD s) st

/-! ## Backup, restore, validation -/

/-- The file entries of the `src` tree (what `shutil.copytree("src", ...)`
copies). -/
def src_files (st : FileSys) : List (String × String) :=
  st.files.filter (fun e => strStarts e.1 "src/")

/-- The directories of the `src` tree. -/
def src_dirs (st : FileSys) : List String :=
  st.dirs.filter (fun d => d == "src" || strStarts d "src/")

/-- `create_backup`: skipped entirely in dry-run mode (returns `None`);
otherwise snapshots the `src` tree under a timestamped sibling name.  The
`Bool` is whether a backup identifier was returned. -/
def create_backup (dry_run : Bool) (st : FileSys) : FileSys × Bool :=
  if dry_run then (st, false)
  else ({ st with backup := some (src_files st, src_dirs st) }, true)

/-- `restore_from_backup`: when not in dry-run mode and the backup directory
still exists, delete the `src` tree and replace it with the snapshot; the
backup itself is retained.  Returns whether a restore happened. -/
def restore_from_backup (dry_run : Bool) (st : FileSys) : FileSys × Bool :=
  if dry_run then (st, false)
  else
    match st.backup with
    | some b =>
      ({ files := st.files.filter (fun e => !strStarts e.1 "src/") ++ b.1,
         dirs := st.dirs.filter (fun d => !(d == "src" || strStarts d "src/")) ++ b.2,
         backup := st.backup }, true)
    | none => (st, false)

/-- `validate_environment`: the required project-root directories. -/
def validate_environment (st : FileSys) : Bool :=
  isdir st "src" && isdir st "src/components" && isdir st "src/components/factions"

/-- The ancestor chain walked by `validate_file_moves` for a destination:
`dirname dst`, then its `dirname`, and so on (longest first, stopping before
the empty string). -/
def parents_of (dst : String) : List String := (ancestors (dirname dst)).reverse

/-- The body of `validate_file_moves` for one mapped pair: an
already-migrated or still-missing pair is passed over (`continue`); a pair
with both ends present is logged as an error (`logging.error`, not the
progress tracker), and then — as for a ready pair — the destination's
ancestor chain is walked and the first ancestor that is a plain file is
logged as an error.  The accumulator is ("no issues found so far", logged
error lines). -/
def vfm_step (st : FileSys) (acc : Bool × List String) (pr : String × String) :
    Bool × List String :=
  if pathExists st pr.2 && !pathExists st pr.1 then acc
  else if !pathExists st pr.1 && !pathExists st pr.2 then acc
  else
    let acc1 := if pathExists st pr.1 && pathExists st pr.2 then
        (false, acc.2 ++ ["Both source and destination exist: " ++ pr.1 ++ " -> " ++ pr.2])
      else acc
    match (parents_of pr.2).find? (fun par => isfile st par) with
    | some par => (false, acc1.2 ++ ["Parent path is a file: " ++ par])
    | none => acc1

/-- `validate_file_moves`: classify every mapped pair, returning "no issues
found" together with the logged error lines. -/
def validate_file_moves (st : FileSys) : Bool × List String :=
  FILE_MOVES.foldl (vfm_step st) (true, [])

/-- Total byte size of the files under `src` (`os.walk`-based sum in
`check_disk_space`; a file's size is the length of its contents). -/
def src_size (st : FileSys) : Nat :=
  (src_files st).foldl (fun a e => a + e.2.length) 0

/-- The required free space of `check_disk_space`:
size times (2 when a backup will be made, else 1) times the 1.2 margin. -/
def required_space (sz : Nat) (backup : Bool) : Rat :=
  (sz : Rat) * (if backup then 2 else 1) * (12 / 10)

/-- `check_disk_space`: `False` exactly when the volume's free space is
below the requirement.  `shutil.disk_usage` returns an integer byte count,
so the comparison `free_space < size * factor * 1.2` is carried out as the
exact scaled integer comparison `free_space * 5 < size * factor * 6`; the
theorem for claim C5 proves this equal to the rational formula
`required_space`. -/
def check_disk_space (st : FileSys) (free_space : Nat) (backup : Bool) : Bool :=
  if free_space * 5 < src_size st * (if backup then 2 else 1) * 6 then false else true

/-! ## The top-level run -/

/-- How one invocation ends. -/
inductive Outcome where
  | badCwd
  | abortedEnv
  | abortedDisk
  | success
  | rolledBack
  | exceptDone
  | crashed
deriving DecidableEq, Repr

/-- The observable result of one invocation: final filesystem state, final
tracker, how the run ended, and the process exit status (`return` paths end
the interpreter with status 0; `sys.exit(1)` and an uncaught exception end
it with status 1). -/
structure RunResult where
  st : FileSys
  tracker : ProgressTracker
  outcome : Outcome
  exitCode : Nat
deriving DecidableEq, Repr

/-- The `except` branch of `main`: record the failure, restore from the
backup when one was made and the run is not a dry run, then print the
report — whose own `ZeroDivisionError` (zero total) escapes uncaught. -/
def handle_exception (dry_run backup_created : Bool) (st : FileSys)
    (progress : ProgressTracker) : RunResult :=
  let progress := progress.add_error "An error occurred during restructuring"
  if backup_created && !dry_run then
    let r := restore_from_backup dry_run st
    match generate_report progress with
    | some _ => { st := r.1, tracker := progress,
                  outcome := if r.2 then Outcome.rolledBack else Outcome.exceptDone,
                  exitCode := 0 }
    | none => { st := r.1, tracker := progress, outcome := Outcome.crashed, exitCode := 1 }
  else
    match generate_report progress with
    | some _ => { st := st, tracker := progress, outcome := Outcome.exceptDone, exitCode := 0 }
    | none => { st := st, tracker := progress, outcome := Outcome.crashed, exitCode := 1 }

/-- The `try` block of `main` and its success epilogue: skeleton, mapped
moves, style re-bucketing (`check_extra_files` only logs and is elided), the
deletion of the backup on success, and the final report.  A failure escaping
the move loop, or the report's own division by zero, falls to
`handle_exception`. -/
def migrate_and_finish (dry_run : Bool) (failAfter : Option Nat) (st1 : FileSys)
    (backup_created : Bool) : RunResult :=
  let st2 := create_new_directories dry_run st1
  match process_file_moves dry_run failAfter st2 ProgressTracker.init with
  | Except.error r => handle_exception dry_run backup_created r.1 r.2
  | Except.ok r =>
    let r4 := reorganize_styles dry_run r.1 r.2
    let st5 := if !dry_run && backup_created && r4.1.backup.isSome
      then { r4.1 with backup := none } else r4.1
    match generate_report r4.2 with
    | some _ => { st := st5, tracker := r4.2, outcome := Outcome.success, exitCode := 0 }
    | none => handle_exception dry_run backup_created st5 r4.2

/-- The body of `main`: validate the environment (abort on failure with a plain
`return`, i.e. exit status 0), run the informational `validate_file_moves`
(its result is ignored: "We continue even if this returns False"), check
disk space with the backup factor `not args.dry_run` (abort, again exit 0),
create the backup, then migrate. -/
def main_run (dry_run : Bool) (failAfter : Option Nat) (free_space : Nat)
    (st : FileSys) : RunResult :=
  if !validate_environment st then
    { st := st, tracker := ProgressTracker.init, outcome := Outcome.abortedEnv, exitCode := 0 }
  else if !check_disk_space st free_space !dry_run then
    { st := st, tracker := ProgressTracker.init, outcome := Outcome.abortedDisk, exitCode := 0 }
  else
    let bk := create_backup dry_run st
    migrate_and_finish dry_run failAfter bk.1 bk.2

/-- The `__main__` guard: running outside the project root (`src` is not a
directory) is the only abort that calls `sys.exit(1)`. -/
def run_script (dry_run : Bool) (failAfter : Option Nat) (free_space : Nat)
    (st : FileSys) : RunResult :=
  if !isdir st "src" then
    { st := st, tracker := ProgressTracker.init, outcome := Outcome.badCwd, exitCode := 1 }
  else main_run dry_run failAfter free_space st

/-! ## Basic lemmas about the file table -/

theorem fsLookup_fsErase_self (fs : List (String × String)) (p : String) :
    fsLookup (fsErase fs p) p = none := by
  induction fs with
  | nil => rfl
  | cons e rest ih =>
    by_cases h : e.1 = p
    · simpa [fsErase, List.filter_cons, h] using ih
    · simpa [fsErase, List.filter_cons, h, fsLookup] using ih

theorem fsLookup_fsErase_ne (fs : List (String × String)) {p q : String} (h : q ≠ p) :
    fsLookup (fsErase fs p) q = fsLookup fs q := by
  induction fs with
  | nil => rfl
  | cons e rest ih =>
    by_cases he : e.1 = p
    · simp only [fsErase, List.filter_cons, he, bne_self_eq_false, Bool.not_true,
        Bool.false_eq_true, if_false, fsLookup, h.symm, if_neg (h.symm)]
      simpa [fsErase] using ih
    · simp only [fsErase, List.filter_cons, fsLookup]
      have hbne : (!(e.1 == p)) = true := by simp [he]
      rw [if_pos hbne]
      by_cases hq : e.1 = q
      · simp [fsLookup, hq]
      · simp only [fsLookup, if_neg hq]
        simpa [fsErase] using ih

theorem fsLookup_fsSet_self (fs : List (String × String)) (p c : String) :
    fsLookup (fsSet fs p c) p = some c := by
  simp [fsSet, fsLookup]

theorem fsLookup_fsSet_ne (fs : List (String × String)) {p q : String} (c : String)
    (h : q ≠ p) : fsLookup (fsSet fs p c) q = fsLookup fs q := by
  have : ¬ p = q := fun hq => h hq.symm
  simp [fsSet, fsLookup, this, fsLookup_fsErase_ne fs h]

theorem fsExists_fsSet_ne (fs : List (String × String)) {p q : String} (c : String)
    (h : q ≠ p) : fsExists (fsSet fs p c) q = fsExists fs q := by
  simp [fsExists, fsLookup_fsSet_ne fs c h]

/-! ## Basic lemmas about the string helpers -/

theorem chStarts_append (p rest : List Char) : chStarts p (p ++ rest) = true := by
  induction p with
  | nil => rfl
  | cons a as ih => simp [chStarts, ih]

/-- A string that starts with a prefix is never equal to one that does not. -/
theorem ne_of_starts_of_not_starts {p q pre : String}
    (hq : strStarts q pre = true) (hp : strStarts p pre = false) : p ≠ q := by
  intro h; rw [h, hq] at hp; exact Bool.noConfusion hp

theorem strStarts_append (pre x : String) : strStarts (pre ++ x) pre = true := by
  simp [strStarts, String.data_append, chStarts_append]

/-- A string with a dot is never equal to one without. -/
theorem ne_of_dot {p q : String} (hp : hasDot p = true) (hq : hasDot q = false) :
    p ≠ q := by
  intro h; rw [h, hq] at hp; exact Bool.false_ne_true hp

theorem chStarts_append_contains {ys : List Char} :
    ∀ (xs h : List Char), chStarts (xs ++ ys) h = true → chContains ys h = true := by
  intro xs
  induction xs with
  | nil =>
    intro h hs
    simp only [List.nil_append] at hs
    cases h with
    | nil => simpa [chContains] using hs
    | cons b bs =>
      have hrfl : chContains ys (b :: bs) = (chStarts ys (b :: bs) || chContains ys bs) := rfl
      rw [hrfl, hs]
      simp
  | cons a as ih =>
    intro h hs
    cases h with
    | nil => simp [chStarts] at hs
    | cons b bs =>
      simp only [List.cons_append, chStarts, Bool.and_eq_true] at hs
      have hc := ih bs hs.2
      have hrfl : chContains ys (b :: bs) = (chStarts ys (b :: bs) || chContains ys bs) := rfl
      rw [hrfl, hc]
      simp

/-- Containment by a longer needle implies containment by its suffix. -/
theorem chContains_mono {xs ys : List Char} :
    ∀ h : List Char, chContains (xs ++ ys) h = true → chContains ys h = true := by
  intro h
  induction h with
  | nil =>
    intro hc
    cases hxy : xs ++ ys with
    | nil =>
      have hys : ys = [] := (List.append_eq_nil.mp hxy).2
      subst hys
      simp [chContains, chStarts]
    | cons c cs =>
      rw [show chContains (xs ++ ys) [] = chStarts (xs ++ ys) [] from rfl, hxy] at hc
      simp [chStarts] at hc
  | cons b bs ih =>
    intro hc
    have hrfl1 : chContains (xs ++ ys) (b :: bs)
        = (chStarts (xs ++ ys) (b :: bs) || chContains (xs ++ ys) bs) := rfl
    rw [hrfl1, Bool.or_eq_true] at hc
    rcases hc with hc | hc
    · exact chStarts_append_contains xs (b :: bs) hc
    · have hrfl2 : chContains ys (b :: bs)
          = (chStarts ys (b :: bs) || chContains ys bs) := rfl
      rw [hrfl2, Bool.or_eq_true]
      exact Or.inr (ih hc)

/-! ## Path-splitting lemmas -/

theorem pathParts_cons (c : Char) (rest : List Char) :
    pathParts (c :: rest) = (match pathParts rest with
      | [] => if c = '/' then [[], []] else [[c]]
      | h :: t => if c = '/' then [] :: h :: t else (c :: h) :: t) := rfl

theorem pathParts_ne_nil : ∀ cs : List Char, pathParts cs ≠ [] := by
  intro cs
  cases cs with
  | nil => simp [pathParts]
  | cons c rest =>
    rw [pathParts_cons]
    cases pathParts rest with
    | nil => by_cases hc : c = '/' <;> simp [hc]
    | cons h t => by_cases hc : c = '/' <;> simp [hc]

theorem exists_pathParts_cons (rest : List Char) :
    ∃ h t, pathParts rest = h :: t := by
  cases hpp : pathParts rest with
  | nil => exact absurd hpp (pathParts_ne_nil rest)
  | cons a b => exact ⟨a, b, rfl⟩

theorem pathParts_cons_eq (c : Char) (rest : List Char) {h : List Char}
    {t : List (List Char)} (hp : pathParts rest = h :: t) :
    pathParts (c :: rest) = if c = '/' then [] :: h :: t else (c :: h) :: t := by
  rw [pathParts_cons, hp]

theorem pathParts_append_slash :
    ∀ xs ys : List Char, pathParts (xs ++ '/' :: ys) = pathParts xs ++ pathParts ys := by
  intro xs ys
  induction xs with
  | nil =>
    obtain ⟨h, t, hp⟩ := exists_pathParts_cons ys
    rw [List.nil_append, pathParts_cons_eq '/' ys hp, if_pos rfl, hp]
    simp [pathParts]
  | cons c rest ih =>
    have hcons : (c :: rest) ++ '/' :: ys = c :: (rest ++ '/' :: ys) := rfl
    obtain ⟨h, t, hp⟩ := exists_pathParts_cons rest
    have hp2 : pathParts (rest ++ '/' :: ys) = h :: (t ++ pathParts ys) := by
      rw [ih, hp, List.cons_append]
    rw [hcons, pathParts_cons_eq c _ hp2, pathParts_cons_eq c rest hp]
    by_cases hc : c = '/' <;> simp [hc]

theorem pathParts_slashfree {cs : List Char} (h : cs.contains '/' = false) :
    pathParts cs = [cs] := by
  induction cs with
  | nil => rfl
  | cons c rest ih =>
    simp only [List.contains_cons, Bool.or_eq_false_iff] at h
    have hc : ¬ c = '/' := by
      intro hc; subst hc; simpa using h.1
    rw [pathParts_cons_eq c rest (ih h.2), if_neg hc]

theorem joinParts_pathParts : ∀ cs : List Char, joinParts (pathParts cs) = cs := by
  intro cs
  induction cs with
  | nil => rfl
  | cons c rest ih =>
    obtain ⟨h, t, hp⟩ := exists_pathParts_cons rest
    rw [pathParts_cons_eq c rest hp]
    rw [hp] at ih
    by_cases hc : c = '/'
    · subst hc
      rw [if_pos rfl, show joinParts ([] :: h :: t) = '/' :: joinParts (h :: t) from rfl, ih]
    · rw [if_neg hc]
      cases t with
      | nil =>
        have hjh : joinParts [h] = h := rfl
        rw [hjh] at ih
        rw [show joinParts [c :: h] = c :: h from rfl, ih]
      | cons q t2 =>
        have hj2 : joinParts (h :: q :: t2) = h ++ '/' :: joinParts (q :: t2) := rfl
        rw [hj2] at ih
        rw [show joinParts ((c :: h) :: q :: t2) = (c :: h) ++ '/' :: joinParts (q :: t2) from rfl,
          List.cons_append]
        exact congrArg (fun l => c :: l) ih

/-- `os.path.dirname` of `d ++ "/" ++ n` is `d` when `n` has no slash. -/
theorem dirname_append_slashfree (d n : String) (h : n.data.contains '/' = false) :
    dirname (d ++ "/" ++ n) = d := by
  have hdata : (d ++ "/" ++ n).data = d.data ++ '/' :: n.data := by
    simp [String.data_append]
  rw [dirname, hdata, pathParts_append_slash, pathParts_slashfree h,
    List.dropLast_concat, joinParts_pathParts]

/-! ## Distinctness facts about the move mapping

The mapping's keys are distinct (it is a Python dict), its values are
distinct, and no value is the key of a *different* entry (several entries map
a path to itself, which is allowed).  These are established through a numeric
fingerprint: distinct fingerprints imply distinct strings, and the quadratic
check over the fingerprints is cheap to evaluate. -/

/-- Two entries of the mapping do not alias: distinct keys, distinct values,
and neither value equals the other's key. -/
def GoodPair (a b : String × String) : Prop :=
  a.1 ≠ b.1 ∧ a.2 ≠ b.2 ∧ a.1 ≠ b.2 ∧ a.2 ≠ b.1

theorem GoodPair.symm {a b : String × String} (h : GoodPair a b) : GoodPair b a :=
  ⟨h.1.symm, h.2.1.symm, h.2.2.2.symm, h.2.2.1.symm⟩

/-- A numeric fingerprint of a string (injective by contraposition: equal
strings have equal fingerprints). -/
def fp (s : String) : Nat := s.data.foldl (fun a c => a * 311 + c.toNat) 7

def goodPairN (a b : Nat × Nat) : Bool :=
  (a.1 != b.1) && (a.2 != b.2) && (a.1 != b.2) && (a.2 != b.1)

def pairwiseGoodN : List (Nat × Nat) → Bool
  | [] => true
  | x :: rest => rest.all (goodPairN x) && pairwiseGoodN rest

theorem ne_of_fp_ne {a b : String} (h : fp a ≠ fp b) : a ≠ b :=
  fun he => h (he ▸ rfl)

theorem goodPair_of_goodPairN {a b : String × String}
    (h : goodPairN (fp a.1, fp a.2) (fp b.1, fp b.2) = true) : GoodPair a b := by
  simp only [goodPairN, Bool.and_eq_true, bne_iff_ne, ne_eq] at h
  exact ⟨ne_of_fp_ne h.1.1.1, ne_of_fp_ne h.1.1.2, ne_of_fp_ne h.1.2, ne_of_fp_ne h.2⟩

theorem pairwise_of_pairwiseGoodN :
    ∀ L : List (String × String),
      pairwiseGoodN (L.map (fun pr => (fp pr.1, fp pr.2))) = true → L.Pairwise GoodPair := by
  intro L
  induction L with
  | nil => intro _; exact List.Pairwise.nil
  | cons a t ih =>
    intro h
    simp only [List.map_cons, pairwiseGoodN, Bool.and_eq_true, List.all_eq_true] at h
    refine List.Pairwise.cons ?_ (ih h.2)
    intro b hb
    exact goodPair_of_goodPairN (h.1 _ (List.mem_map_of_mem _ hb))

set_option maxHeartbeats 4000000 in
/-- The move mapping does not alias between entries. -/
theorem FILE_MOVES_good : FILE_MOVES.Pairwise GoodPair :=
  pairwise_of_pairwiseGoodN FILE_MOVES (by decide)

/-- Any two distinct entries of the mapping satisfy `GoodPair`. -/
theorem goodPair_of_mem {a b : String × String} (ha : a ∈ FILE_MOVES)
    (hb : b ∈ FILE_MOVES) (hne : a ≠ b) : GoodPair a b :=
  List.Pairwise.forall (fun _ _ h => h.symm) FILE_MOVES_good ha hb hne

set_option maxHeartbeats 1600000 in
/-- Every path of the mapping contains a dot. -/
theorem FILE_MOVES_dotted :
    FILE_MOVES.all (fun pr => hasDot pr.1 && hasDot pr.2) = true := by decide

set_option maxHeartbeats 1600000 in
/-- The parent directory of every mapped destination is dot-free. -/
theorem FILE_MOVES_dirname_dotfree :
    FILE_MOVES.all (fun pr => !hasDot (dirname pr.2)) = true := by decide

set_option maxHeartbeats 1600000 in
/-- No mapped path lies under the styles root. -/
theorem FILE_MOVES_not_styles :
    FILE_MOVES.all (fun pr =>
      !strStarts pr.1 "src/styles/" && !strStarts pr.2 "src/styles/") = true := by decide

set_option maxHeartbeats 1600000 in
/-- Every directory of the fixed skeleton is dot-free. -/
theorem NEW_DIRS_dotfree : NEW_DIRS.all (fun d => !hasDot d) = true := by decide

/-! ## Lemmas about the file mover -/

theorem fsExists_eq_of_lookup {A B : List (String × String)} {p : String}
    (h : fsLookup A p = fsLookup B p) : fsExists A p = fsExists B p := by
  simp [fsExists, h]

theorem fsExists_iff_lookup {fs : List (String × String)} {p : String} :
    fsExists fs p = true ↔ ∃ c, fsLookup fs p = some c := by
  simp [fsExists, Option.isSome_iff_exists]

theorem makedirs_parts {st st1 : FileSys} {p : String} (h : makedirs st p = some st1) :
    st1.files = st.files ∧ st1.backup = st.backup
      ∧ (∀ d ∈ st1.dirs, d ∈ st.dirs ∨ d = p) ∧ (∀ d ∈ st.dirs, d ∈ st1.dirs) := by
  unfold makedirs at h
  split at h
  · cases h
    exact ⟨rfl, rfl, fun d hd => Or.inl hd, fun d hd => hd⟩
  · split at h
    · cases h
    · cases h
      refine ⟨rfl, rfl, ?_, ?_⟩
      · intro d hd
        rcases List.mem_append.mp hd with hd | hd
        · exact Or.inl hd
        · exact Or.inr (List.mem_singleton.mp hd)
      · intro d hd
        exact List.mem_append.mpr (Or.inl hd)

theorem move_file_dry (src dst : String) (st : FileSys) (pr : ProgressTracker) :
    (move_file src dst true st pr).1 = st := by
  unfold move_file
  by_cases h : pathExists st src = true
  · simp [h]
  · simp [Bool.not_eq_true _ ▸ h, h]

/-- In a real run, one `move_file` either leaves the file table unchanged
(missing source, or the destination directory could not be created) or
performs exactly the erase-and-write of the moved file. -/
theorem move_file_files_cases (src dst : String) (st : FileSys) (pr : ProgressTracker) :
    (move_file src dst false st pr).1.files = st.files
    ∨ ((move_file src dst false st pr).1.files
          = fsSet (fsErase st.files src) dst ((fsLookup st.files src).getD "")
        ∧ pathExists st src = true) := by
  unfold move_file
  by_cases h : pathExists st src = true
  · by_cases hd : isdir st (dirname dst) = true
    · right
      simp [h, hd]
    · rcases hm : makedirs st (dirname dst) with _ | st1
      · left
        simp [h, hd, hm]
      · right
        have hf := (makedirs_parts hm).1
        simp [h, hd, hm, hf]
  · left
    simp [h]

theorem move_file_backup (src dst : String) (dry : Bool) (st : FileSys)
    (pr : ProgressTracker) : (move_file src dst dry st pr).1.backup = st.backup := by
  unfold move_file
  by_cases h : pathExists st src = true
  · by_cases hd : isdir st (dirname dst) = true
    · simp [h, hd]
      split <;> rfl
    · cases dry with
      | true => simp [h, hd]
      | false =>
        rcases hm : makedirs st (dirname dst) with _ | st1
        · simp [h, hd, hm]
        · simp [h, hd, hm, (makedirs_parts hm).2.1]
  · simp [h]

theorem move_file_dirs (src dst : String) (dry : Bool) (st : FileSys)
    (pr : ProgressTracker) :
    ∀ d ∈ (move_file src dst dry st pr).1.dirs, d ∈ st.dirs ∨ d = dirname dst := by
  unfold move_file
  by_cases h : pathExists st src = true
  · by_cases hd : isdir st (dirname dst) = true
    · simp only [h, Bool.not_true, Bool.false_eq_true, if_false, hd, Bool.true_or, if_pos]
      intro d hdm
      split at hdm <;> exact Or.inl hdm
    · cases dry with
      | true =>
        simp only [h, Bool.not_true, Bool.false_eq_true, if_false, hd, Bool.or_true, if_pos]
        exact fun d hdm => Or.inl hdm
      | false =>
        rcases hm : makedirs st (dirname dst) with _ | st1
        · simp [h, hd, hm]
          exact fun d hdm => Or.inl hdm
        · simp only [h, Bool.not_true, Bool.false_eq_true, if_false, hd, Bool.or_false,
            Bool.false_eq_true, hm]
          intro d hdm
          exact (makedirs_parts hm).2.2.1 d hdm
  · simp [h]
    exact fun d hdm => Or.inl hdm

theorem move_file_dirs_mono (src dst : String) (dry : Bool) (st : FileSys)
    (pr : ProgressTracker) :
    ∀ d ∈ st.dirs, d ∈ (move_file src dst dry st pr).1.dirs := by
  unfold move_file
  by_cases h : pathExists st src = true
  · by_cases hd : isdir st (dirname dst) = true
    · simp only [h, Bool.not_true, Bool.false_eq_true, if_false, hd, Bool.true_or, if_pos]
      intro d hdm
      split <;> exact hdm
    · cases dry with
      | true => simp [h, hd]
      | false =>
        rcases hm : makedirs st (dirname dst) with _ | st1
        · simp [h, hd, hm]
        · simp only [h, Bool.not_true, Bool.false_eq_true, if_false, hd, Bool.or_false,
            Bool.false_eq_true, hm]
          intro d hdm
          exact (makedirs_parts hm).2.2.2 d hdm
  · simp [h]

theorem move_file_lookup_other {p src dst : String} (h1 : p ≠ src) (h2 : p ≠ dst)
    (dry : Bool) (st : FileSys) (pr : ProgressTracker) :
    fsLookup (move_file src dst dry st pr).1.files p = fsLookup st.files p := by
  cases dry with
  | true => rw [move_file_dry]
  | false =>
    rcases move_file_files_cases src dst st pr with hU | ⟨hM, _⟩
    · rw [hU]
    · rw [hM, fsLookup_fsSet_ne _ _ h2, fsLookup_fsErase_ne _ h1]

theorem move_file_total (src dst : String) (dry : Bool) (st : FileSys)
    (pr : ProgressTracker) :
    (move_file src dst dry st pr).2.total_operations = pr.total_operations := by
  unfold move_file
  by_cases h : pathExists st src = true
  · by_cases hd : isdir st (dirname dst) = true
    · simp only [h, Bool.not_true, Bool.false_eq_true, if_false, hd, Bool.true_or, if_pos]
      split <;> rfl
    · cases dry with
      | true => simp [h, hd, ProgressTracker.increment]
      | false =>
        rcases hm : makedirs st (dirname dst) with _ | st1
        · simp [h, hd, hm, ProgressTracker.add_error]
        · simp [h, hd, hm, ProgressTracker.increment]
  · simp [h, ProgressTracker.add_warning]

theorem move_file_errors (src dst : String) (dry : Bool) (st : FileSys)
    (pr : ProgressTracker) :
    ∀ e ∈ (move_file src dst dry st pr).2.errors,
      e ∈ pr.errors ∨ ∃ dd, e = "Error creating destination directory " ++ dd := by
  unfold move_file
  by_cases h : pathExists st src = true
  · by_cases hd : isdir st (dirname dst) = true
    · simp only [h, Bool.not_true, Bool.false_eq_true, if_false, hd, Bool.true_or, if_pos]
      intro e he
      split at he <;> exact Or.inl (by simpa [ProgressTracker.increment] using he)
    · cases dry with
      | true =>
        intro e he
        simp [h, hd, ProgressTracker.increment] at he
        exact Or.inl he
      | false =>
        rcases hm : makedirs st (dirname dst) with _ | st1
        · intro e he
          simp [h, hd, hm, ProgressTracker.add_error] at he
          rcases he with he | he
          · exact Or.inl he
          · exact Or.inr ⟨dirname dst, he⟩
        · intro e he
          simp [h, hd, hm, ProgressTracker.increment] at he
          exact Or.inl he
  · intro e he
    simp [h, ProgressTracker.add_warning] at he
    exact Or.inl he

/-! ## Lemmas about the move loop -/

theorem run_moves_nil (dry : Bool) (st : FileSys) (pr : ProgressTracker) :
    run_moves dry [] st pr = (st, pr) := rfl

theorem run_moves_cons (dry : Bool) (m : String × String) (rest : List (String × String))
    (st : FileSys) (pr : ProgressTracker) :
    run_moves dry (m :: rest) st pr
      = run_moves dry rest (move_file m.1 m.2 dry st pr).1 (move_file m.1 m.2 dry st pr).2 := by
  simp only [run_moves, List.foldl_cons]

theorem run_moves_dry (moves : List (String × String)) :
    ∀ (st : FileSys) (pr : ProgressTracker), (run_moves true moves st pr).1 = st := by
  induction moves with
  | nil => intro st pr; rfl
  | cons m rest ih =>
    intro st pr
    rw [run_moves_cons, ih, move_file_dry]

theorem run_moves_backup (dry : Bool) (moves : List (String × String)) :
    ∀ (st : FileSys) (pr : ProgressTracker), (run_moves dry moves st pr).1.backup = st.backup := by
  induction moves with
  | nil => intro st pr; rfl
  | cons m rest ih =>
    intro st pr
    rw [run_moves_cons, ih, move_file_backup]

theorem run_moves_total (dry : Bool) (moves : List (String × String)) :
    ∀ (st : FileSys) (pr : ProgressTracker),
      (run_moves dry moves st pr).2.total_operations = pr.total_operations := by
  induction moves with
  | nil => intro st pr; rfl
  | cons m rest ih =>
    intro st pr
    rw [run_moves_cons, ih, move_file_total]

theorem run_moves_dirs_mono (dry : Bool) (moves : List (String × String)) :
    ∀ (st : FileSys) (pr : ProgressTracker) (d : String),
      d ∈ st.dirs → d ∈ (run_moves dry moves st pr).1.dirs := by
  induction moves with
  | nil => intro st pr d hd; exact hd
  | cons m rest ih =>
    intro st pr d hd
    rw [run_moves_cons]
    exact ih _ _ d (move_file_dirs_mono m.1 m.2 dry st pr d hd)

theorem run_moves_dirs (dry : Bool) (moves : List (String × String)) :
    ∀ (st : FileSys) (pr : ProgressTracker),
      ∀ d ∈ (run_moves dry moves st pr).1.dirs,
        d ∈ st.dirs ∨ ∃ m ∈ moves, d = dirname m.2 := by
  induction moves with
  | nil => intro st pr d hd; exact Or.inl hd
  | cons m rest ih =>
    intro st pr d hd
    rw [run_moves_cons] at hd
    rcases ih _ _ d hd with hd1 | ⟨m1, hm1, he⟩
    · rcases move_file_dirs m.1 m.2 dry st pr d hd1 with hd2 | hd2
      · exact Or.inl hd2
      · exact Or.inr ⟨m, List.mem_cons_self _ _, hd2⟩
    · exact Or.inr ⟨m1, List.mem_cons_of_mem _ hm1, he⟩

theorem run_moves_lookup_other (dry : Bool) (moves : List (String × String)) (p : String) :
    ∀ (st : FileSys) (pr : ProgressTracker),
      (∀ m ∈ moves, p ≠ m.1 ∧ p ≠ m.2) →
      fsLookup (run_moves dry moves st pr).1.files p = fsLookup st.files p := by
  induction moves with
  | nil => intro st pr _; rfl
  | cons m rest ih =>
    intro st pr h
    rw [run_moves_cons]
    have hm := h m (List.mem_cons_self _ _)
    rw [ih _ _ (fun m1 hm1 => h m1 (List.mem_cons_of_mem _ hm1)),
      move_file_lookup_other hm.1 hm.2]

theorem run_moves_errors (dry : Bool) (moves : List (String × String)) :
    ∀ (st : FileSys) (pr : ProgressTracker),
      ∀ e ∈ (run_moves dry moves st pr).2.errors,
        e ∈ pr.errors ∨ ∃ dd, e = "Error creating destination directory " ++ dd := by
  induction moves with
  | nil => intro st pr e he; exact Or.inl he
  | cons m rest ih =>
    intro st pr e he
    rw [run_moves_cons] at he
    rcases ih _ _ e he with he1 | he1
    · exact move_file_errors m.1 m.2 dry st pr e he1
    · exact Or.inr he1

/-- The per-pair outcome of a real move loop over non-aliasing pairs that
are all actionable at the start: each pair is either left exactly as it was
(its move was skipped, e.g. the destination directory could not be created)
or fully moved (source gone, destination holding the source's contents).
No other pair of the loop can disturb it. -/
theorem run_moves_each (moves : List (String × String)) :
    ∀ (st : FileSys) (pr : ProgressTracker),
      moves.Pairwise GoodPair →
      (∀ m ∈ moves, fsExists st.files m.1 = true ∧ fsExists st.files m.2 = false) →
      ∀ m ∈ moves,
        (fsLookup (run_moves false moves st pr).1.files m.1 = fsLookup st.files m.1
          ∧ fsExists (run_moves false moves st pr).1.files m.2 = false)
        ∨ (fsExists (run_moves false moves st pr).1.files m.1 = false
          ∧ fsLookup (run_moves false moves st pr).1.files m.2 = fsLookup st.files m.1) := by
  induction moves with
  | nil => intro st pr _ _ m hm; cases hm
  | cons a rest ih =>
    intro st pr hPW hpre m hm
    obtain ⟨hGa, hPWr⟩ := List.pairwise_cons.mp hPW
    have hprea := hpre a (List.mem_cons_self _ _)
    have hane : a.1 ≠ a.2 := by
      intro he
      rw [he, hprea.2] at hprea
      exact Bool.noConfusion hprea.1
    rw [run_moves_cons]
    rcases move_file_files_cases a.1 a.2 st pr with hU | ⟨hM, _⟩
    · -- the head move was skipped; the table is unchanged
      have hpre1 : ∀ m1 ∈ rest,
          fsExists (move_file a.1 a.2 false st pr).1.files m1.1 = true
          ∧ fsExists (move_file a.1 a.2 false st pr).1.files m1.2 = false := by
        intro m1 hm1
        rw [hU]
        exact hpre m1 (List.mem_cons_of_mem _ hm1)
      rcases List.mem_cons.mp hm with hma | hmr
      · subst hma
        left
        have hoth : ∀ m1 ∈ rest, m.1 ≠ m1.1 ∧ m.1 ≠ m1.2 := by
          intro m1 hm1
          exact ⟨(hGa m1 hm1).1, (hGa m1 hm1).2.2.1⟩
        have hoth2 : ∀ m1 ∈ rest, m.2 ≠ m1.1 ∧ m.2 ≠ m1.2 := by
          intro m1 hm1
          exact ⟨(hGa m1 hm1).2.2.2, (hGa m1 hm1).2.1⟩
        constructor
        · rw [run_moves_lookup_other false rest m.1 _ _ hoth, hU]
        · rw [fsExists_eq_of_lookup (run_moves_lookup_other false rest m.2 _ _ hoth2), hU]
          exact hprea.2
      · have hres := ih (move_file a.1 a.2 false st pr).1 (move_file a.1 a.2 false st pr).2 hPWr hpre1 m hmr
        rcases hres with ⟨h1, h2⟩ | ⟨h1, h2⟩
        · left
          rw [hU] at h1
          exact ⟨h1, h2⟩
        · right
          rw [hU] at h2
          exact ⟨h1, h2⟩
    · -- the head move happened
      obtain ⟨ca, hca⟩ := fsExists_iff_lookup.mp hprea.1
      have hpre1 : ∀ m1 ∈ rest,
          fsExists (move_file a.1 a.2 false st pr).1.files m1.1 = true
          ∧ fsExists (move_file a.1 a.2 false st pr).1.files m1.2 = false := by
        intro m1 hm1
        have hg := hGa m1 hm1
        rw [hM]
        constructor
        · rw [fsExists_eq_of_lookup (fsLookup_fsSet_ne _ _ hg.2.2.2.symm),
            fsExists_eq_of_lookup (fsLookup_fsErase_ne _ hg.1.symm)]
          exact (hpre m1 (List.mem_cons_of_mem _ hm1)).1
        · rw [fsExists_eq_of_lookup (fsLookup_fsSet_ne _ _ hg.2.1.symm),
            fsExists_eq_of_lookup (fsLookup_fsErase_ne _ hg.2.2.1.symm)]
          exact (hpre m1 (List.mem_cons_of_mem _ hm1)).2
      rcases List.mem_cons.mp hm with hma | hmr
      · subst hma
        right
        have hoth : ∀ m1 ∈ rest, m.1 ≠ m1.1 ∧ m.1 ≠ m1.2 := by
          intro m1 hm1
          exact ⟨(hGa m1 hm1).1, (hGa m1 hm1).2.2.1⟩
        have hoth2 : ∀ m1 ∈ rest, m.2 ≠ m1.1 ∧ m.2 ≠ m1.2 := by
          intro m1 hm1
          exact ⟨(hGa m1 hm1).2.2.2, (hGa m1 hm1).2.1⟩
        constructor
        · rw [fsExists_eq_of_lookup (run_moves_lookup_other false rest m.1 _ _ hoth), hM]
          rw [show fsExists (fsSet (fsErase st.files m.1) m.2 ((fsLookup st.files m.1).getD ""))
              m.1 = fsExists (fsErase st.files m.1) m.1 from
            fsExists_eq_of_lookup (fsLookup_fsSet_ne _ _ hane)]
          simp [fsExists, fsLookup_fsErase_self]
        · rw [run_moves_lookup_other false rest m.2 _ _ hoth2, hM,
            fsLookup_fsSet_self, hca]
          simp
      · have hres := ih (move_file a.1 a.2 false st pr).1 (move_file a.1 a.2 false st pr).2 hPWr hpre1 m hmr
        have hg := hGa m hmr
        have hl1 : fsLookup (move_file a.1 a.2 false st pr).1.files m.1
            = fsLookup st.files m.1 := by
          rw [hM, fsLookup_fsSet_ne _ _ hg.2.2.2.symm, fsLookup_fsErase_ne _ hg.1.symm]
        rcases hres with ⟨h1, h2⟩ | ⟨h1, h2⟩
        · left
          rw [hl1] at h1
          exact ⟨h1, h2⟩
        · right
          rw [hl1] at h2
          exact ⟨h1, h2⟩

/-! ## Lemmas about the remaining phases -/

theorem contains_false_of_not_mem {l : List String} {a : String} (h : a ∉ l) :
    l.contains a = false := by
  by_contra hc
  rw [Bool.not_eq_false] at hc
  exact h (by simpa using hc)

theorem mem_moves_needed {st : FileSys} {m : String × String} :
    m ∈ moves_needed st
      ↔ m ∈ FILE_MOVES ∧ pathExists st m.1 = true ∧ pathExists st m.2 = false := by
  simp [moves_needed, List.mem_filter, Bool.and_eq_true, Bool.not_eq_true']

theorem moves_needed_pairwise (st : FileSys) : (moves_needed st).Pairwise GoodPair :=
  List.Pairwise.sublist (List.filter_sublist FILE_MOVES) FILE_MOVES_good

theorem moves_needed_mem_FILE_MOVES {st : FileSys} {m : String × String}
    (h : m ∈ moves_needed st) : m ∈ FILE_MOVES := (mem_moves_needed.mp h).1

theorem create_backup_dry (st : FileSys) : create_backup true st = (st, false) := rfl

theorem create_backup_real (st : FileSys) :
    create_backup false st = ({ st with backup := some (src_files st, src_dirs st) }, true) := rfl

theorem fold_mkdir_files : ∀ (L : List String) (st : FileSys),
    (L.foldl (fun s d => if isdir s d then s else (makedirs s d).getD s) st).files
      = st.files := by
  intro L
  induction L with
  | nil => intro st; rfl
  | cons d t ih =>
    intro st
    rw [List.foldl_cons, ih]
    by_cases hd : isdir st d = true
    · rw [if_pos hd]
    · rw [if_neg hd]
      rcases hm : makedirs st d with _ | s1
      · rfl
      · simpa using (makedirs_parts hm).1

theorem fold_mkdir_backup : ∀ (L : List String) (st : FileSys),
    (L.foldl (fun s d => if isdir s d then s else (makedirs s d).getD s) st).backup
      = st.backup := by
  intro L
  induction L with
  | nil => intro st; rfl
  | cons d t ih =>
    intro st
    rw [List.foldl_cons, ih]
    by_cases hd : isdir st d = true
    · rw [if_pos hd]
    · rw [if_neg hd]
      rcases hm : makedirs st d with _ | s1
      · rfl
      · simpa using (makedirs_parts hm).2.1

theorem fold_mkdir_dirs : ∀ (L : List String) (st : FileSys),
    ∀ d ∈ (L.foldl (fun s d => if isdir s d then s else (makedirs s d).getD s) st).dirs,
      d ∈ st.dirs ∨ d ∈ L := by
  intro L
  induction L with
  | nil => intro st d hd; exact Or.inl hd
  | cons a t ih =>
    intro st d hd
    rw [List.foldl_cons] at hd
    rcases ih _ d hd with h1 | h1
    · by_cases ha : isdir st a = true
      · rw [if_pos ha] at h1
        exact Or.inl h1
      · rw [if_neg ha] at h1
        rcases hm : makedirs st a with _ | s1
        · rw [hm] at h1
          exact Or.inl h1
        · rw [hm] at h1
          rcases (makedirs_parts hm).2.2.1 d h1 with h2 | h2
          · exact Or.inl h2
          · exact Or.inr (h2 ▸ List.mem_cons_self _ _)
    · exact Or.inr (List.mem_cons_of_mem _ h1)

theorem fold_mkdir_dirs_mono : ∀ (L : List String) (st : FileSys),
    ∀ d ∈ st.dirs,
      d ∈ (L.foldl (fun s d => if isdir s d then s else (makedirs s d).getD s) st).dirs := by
  intro L
  induction L with
  | nil => intro st d hd; exact hd
  | cons a t ih =>
    intro st d hd
    rw [List.foldl_cons]
    apply ih
    by_cases ha : isdir st a = true
    · rw [if_pos ha]; exact hd
    · rw [if_neg ha]
      rcases hm : makedirs st a with _ | s1
      · exact hd
      · simpa using (makedirs_parts hm).2.2.2 d hd

theorem cnd_files (dry : Bool) (st : FileSys) :
    (create_new_directories dry st).files = st.files := by
  cases dry with
  | true => rfl
  | false => exact fold_mkdir_files NEW_DIRS st

theorem cnd_backup (dry : Bool) (st : FileSys) :
    (create_new_directories dry st).backup = st.backup := by
  cases dry with
  | true => rfl
  | false => exact fold_mkdir_backup NEW_DIRS st

theorem cnd_dirs (dry : Bool) (st : FileSys) :
    ∀ d ∈ (create_new_directories dry st).dirs, d ∈ st.dirs ∨ d ∈ NEW_DIRS := by
  cases dry with
  | true => exact fun d hd => Or.inl hd
  | false => exact fold_mkdir_dirs NEW_DIRS st

theorem cnd_dirs_mono (dry : Bool) (st : FileSys) :
    ∀ d ∈ st.dirs, d ∈ (create_new_directories dry st).dirs := by
  cases dry with
  | true => exact fun d hd => hd
  | false => exact fold_mkdir_dirs_mono NEW_DIRS st

/-! ## The mapped-path invariant

No path of the move mapping is ever a directory: they are not directories at
the start (hypothesis), the skeleton directories are dot-free while every
mapped path has a dot, and so is every destination parent the mover
creates.  Under this invariant `os.path.exists` on a mapped path is exactly
file existence. -/

def MappedFree (st : FileSys) : Prop :=
  ∀ m ∈ FILE_MOVES, m.1 ∉ st.dirs ∧ m.2 ∉ st.dirs

theorem mapped_hasDot {m : String × String} (hm : m ∈ FILE_MOVES) :
    hasDot m.1 = true ∧ hasDot m.2 = true := by
  have h := List.all_eq_true.mp FILE_MOVES_dotted m hm
  exact Bool.and_eq_true .. ▸ (by simpa using h)

theorem mapped_not_styles {m : String × String} (hm : m ∈ FILE_MOVES) :
    strStarts m.1 "src/styles/" = false ∧ strStarts m.2 "src/styles/" = false := by
  have h := List.all_eq_true.mp FILE_MOVES_not_styles m hm
  simp only [Bool.and_eq_true, Bool.not_eq_true'] at h
  exact h

theorem new_dirs_dotfree {d : String} (hd : d ∈ NEW_DIRS) : hasDot d = false := by
  have h := List.all_eq_true.mp NEW_DIRS_dotfree d hd
  simpa using h

theorem mapped_dirname_dotfree {m : String × String} (hm : m ∈ FILE_MOVES) :
    hasDot (dirname m.2) = false := by
  have h := List.all_eq_true.mp FILE_MOVES_dirname_dotfree m hm
  simpa using h

theorem mappedFree_cnd {st : FileSys} (h : MappedFree st) (dry : Bool) :
    MappedFree (create_new_directories dry st) := by
  intro m hm
  constructor
  · intro hmem
    rcases cnd_dirs dry st _ hmem with h1 | h1
    · exact (h m hm).1 h1
    · exact ne_of_dot (mapped_hasDot hm).1 (new_dirs_dotfree h1) rfl
  · intro hmem
    rcases cnd_dirs dry st _ hmem with h1 | h1
    · exact (h m hm).2 h1
    · exact ne_of_dot (mapped_hasDot hm).2 (new_dirs_dotfree h1) rfl

theorem mappedFree_run_moves {st : FileSys} {pr : ProgressTracker} {dry : Bool}
    {moves : List (String × String)} (h : MappedFree st)
    (hsub : ∀ m ∈ moves, m ∈ FILE_MOVES) :
    MappedFree (run_moves dry moves st pr).1 := by
  intro m hm
  constructor
  · intro hmem
    rcases run_moves_dirs dry moves st pr _ hmem with h1 | ⟨m1, hm1, he⟩
    · exact (h m hm).1 h1
    · exact ne_of_dot (mapped_hasDot hm).1
        (mapped_dirname_dotfree (hsub m1 hm1)) he
  · intro hmem
    rcases run_moves_dirs dry moves st pr _ hmem with h1 | ⟨m1, hm1, he⟩
    · exact (h m hm).2 h1
    · exact ne_of_dot (mapped_hasDot hm).2
        (mapped_dirname_dotfree (hsub m1 hm1)) he

theorem pathExists_eq_fsExists_of_not_dir {st : FileSys} {p : String}
    (h : p ∉ st.dirs) : pathExists st p = fsExists st.files p := by
  rw [pathExists, contains_false_of_not_mem h, Bool.or_false]

/-! ## Lemmas about the style re-bucketer -/

theorem mem_style_moves {names : List String} {m : String × String}
    (hm : m ∈ style_moves_list names) :
    ∃ cat n, n ∈ names ∧ m = ("src/styles/" ++ n, "src/styles/" ++ cat ++ "/" ++ n) := by
  simp only [style_moves_list, List.mem_flatten, List.mem_map] at hm
  obtain ⟨l, ⟨cat, hcat, hl⟩, hml⟩ := hm
  subst hl
  simp only [List.mem_map] at hml
  obtain ⟨n, hn, he⟩ := hml
  exact ⟨cat, n, List.mem_of_mem_filter hn, he.symm⟩

theorem style_moves_prefix {names : List String} :
    ∀ m ∈ style_moves_list names,
      strStarts m.1 "src/styles/" = true ∧ strStarts m.2 "src/styles/" = true := by
  intro m hm
  obtain ⟨cat, n, _, he⟩ := mem_style_moves hm
  subst he
  refine ⟨strStarts_append _ n, ?_⟩
  have hassoc : "src/styles/" ++ cat ++ "/" ++ n = "src/styles/" ++ (cat ++ "/" ++ n) := by
    simp [String.append_assoc]
  rw [hassoc]
  exact strStarts_append _ _

theorem reorganize_styles_lookup_other {p : String} (hns : strStarts p "src/styles/" = false)
    (dry : Bool) (st : FileSys) (pr : ProgressTracker) :
    fsLookup (reorganize_styles dry st pr).1.files p = fsLookup st.files p := by
  unfold reorganize_styles
  by_cases hs : isdir st styles_root = true
  · simp only [hs, Bool.not_true, Bool.false_eq_true, if_false]
    apply run_moves_lookup_other
    intro m hm
    have hpre := style_moves_prefix m hm
    exact ⟨ne_of_starts_of_not_starts hpre.1 hns, ne_of_starts_of_not_starts hpre.2 hns⟩
  · simp [hs]

theorem reorganize_styles_backup (dry : Bool) (st : FileSys) (pr : ProgressTracker) :
    (reorganize_styles dry st pr).1.backup = st.backup := by
  unfold reorganize_styles
  by_cases hs : isdir st styles_root = true
  · simp only [hs, Bool.not_true, Bool.false_eq_true, if_false]
    exact run_moves_backup _ _ _ _
  · simp [hs]

theorem reorganize_styles_dry (st : FileSys) (pr : ProgressTracker) :
    (reorganize_styles true st pr).1 = st := by
  unfold reorganize_styles
  by_cases hs : isdir st styles_root = true
  · simp only [hs, Bool.not_true, Bool.false_eq_true, if_false]
    exact run_moves_dry _ _ _
  · simp [hs]

theorem reorganize_styles_total (dry : Bool) (st : FileSys) (pr : ProgressTracker) :
    (reorganize_styles dry st pr).2.total_operations
      = (if isdir st styles_root = true
          then pr.total_operations + (top_css_names st.files).length
          else pr.total_operations) := by
  unfold reorganize_styles
  by_cases hs : isdir st styles_root = true
  · simp only [hs, Bool.not_true, Bool.false_eq_true, if_false, if_pos]
    rw [run_moves_total]
    rfl
  · simp [hs, ProgressTracker.add_warning]

theorem reorganize_styles_errors (dry : Bool) (st : FileSys) (pr : ProgressTracker) :
    ∀ e ∈ (reorganize_styles dry st pr).2.errors,
      e ∈ pr.errors ∨ ∃ dd, e = "Error creating destination directory " ++ dd := by
  unfold reorganize_styles
  by_cases hs : isdir st styles_root = true
  · simp only [hs, Bool.not_true, Bool.false_eq_true, if_false]
    intro e he
    rcases run_moves_errors _ _ _ _ e he with h1 | h1
    · exact Or.inl (by simpa [ProgressTracker.set_total] using h1)
    · exact Or.inr h1
  · simp only [hs]
    intro e he
    exact Or.inl (by simpa [ProgressTracker.add_warning] using he)

/-! ## The CSS scan is untouched by the mapped moves -/

theorem top_css_entry_none {e : String × String}
    (h : chStarts ("src/styles/".data) e.1.data = false) : top_css_entry e = none := by
  simp [top_css_entry, h]

theorem top_css_names_fsErase (fs : List (String × String)) {p : String}
    (hp : strStarts p "src/styles/" = false) :
    top_css_names (fsErase fs p) = top_css_names fs := by
  induction fs with
  | nil => rfl
  | cons e t ih =>
    by_cases he : e.1 = p
    · have hnone : top_css_entry e = none := top_css_entry_none (by rw [he]; exact hp)
      simp only [fsErase, List.filter_cons, he, bne_self_eq_false, Bool.not_true,
        Bool.false_eq_true, if_false, top_css_names, List.filterMap_cons, hnone]
      simpa [fsErase, top_css_names] using ih
    · have hbne : (!(e.1 == p)) = true := by simp [he]
      simp only [fsErase, List.filter_cons, hbne, if_pos, top_css_names,
        List.filterMap_cons]
      have iht : List.filterMap top_css_entry (List.filter (fun e => !(e.1 == p)) t)
          = List.filterMap top_css_entry t := by
        simpa [fsErase, top_css_names] using ih
      cases top_css_entry e with
      | none => exact iht
      | some b => rw [iht]

theorem top_css_names_fsSet (fs : List (String × String)) {p : String} (c : String)
    (hp : strStarts p "src/styles/" = false) :
    top_css_names (fsSet fs p c) = top_css_names fs := by
  have hnone : top_css_entry (p, c) = none := top_css_entry_none hp
  simp only [fsSet, top_css_names, List.filterMap_cons, hnone]
  simpa [top_css_names] using top_css_names_fsErase fs hp

theorem run_moves_top_css (moves : List (String × String))
    (h : ∀ m ∈ moves, strStarts m.1 "src/styles/" = false
        ∧ strStarts m.2 "src/styles/" = false) :
    ∀ (st : FileSys) (pr : ProgressTracker),
      top_css_names (run_moves false moves st pr).1.files = top_css_names st.files := by
  induction moves with
  | nil => intro st pr; rfl
  | cons a rest ih =>
    intro st pr
    rw [run_moves_cons]
    have ha := h a (List.mem_cons_self _ _)
    rw [ih (fun m hm => h m (List.mem_cons_of_mem _ hm))]
    rcases move_file_files_cases a.1 a.2 st pr with hU | ⟨hM, _⟩
    · rw [hU]
    · rw [hM, top_css_names_fsSet _ _ ha.2, top_css_names_fsErase _ ha.1]

/-! ## Dispatch lemmas for the top-level run -/

theorem process_file_moves_none (dry : Bool) (st : FileSys) (pr : ProgressTracker) :
    process_file_moves dry none st pr
      = Except.ok (run_moves dry (moves_needed st) st
          (pr.set_total (moves_needed st).length)) := rfl

theorem process_file_moves_some_lt {k : Nat} {st : FileSys} (dry : Bool)
    (pr : ProgressTracker) (hk : k < (moves_needed st).length) :
    process_file_moves dry (some k) st pr
      = Except.error (run_moves dry ((moves_needed st).take k) st
          (pr.set_total (moves_needed st).length)) := by
  simp [process_file_moves, hk]

theorem main_run_env_fail {st : FileSys} (h : validate_environment st = false)
    (dry : Bool) (fa : Option Nat) (free : Nat) :
    main_run dry fa free st
      = { st := st, tracker := ProgressTracker.init,
          outcome := Outcome.abortedEnv, exitCode := 0 } := by
  simp [main_run, h]

theorem main_run_disk_fail {st : FileSys} {free : Nat} {dry : Bool}
    (henv : validate_environment st = true) (hd : check_disk_space st free (!dry) = false)
    (fa : Option Nat) :
    main_run dry fa free st
      = { st := st, tracker := ProgressTracker.init,
          outcome := Outcome.abortedDisk, exitCode := 0 } := by
  simp [main_run, henv, hd]

theorem main_run_go {st : FileSys} {free : Nat} {dry : Bool}
    (henv : validate_environment st = true) (hdisk : check_disk_space st free (!dry) = true)
    (fa : Option Nat) :
    main_run dry fa free st
      = migrate_and_finish dry fa (create_backup dry st).1 (create_backup dry st).2 := by
  simp [main_run, henv, hdisk]

theorem handle_exception_outcome (dry bc : Bool) (st : FileSys) (pr : ProgressTracker) :
    (handle_exception dry bc st pr).outcome ≠ Outcome.success := by
  unfold handle_exception
  by_cases hb : (bc && !dry) = true
  · rw [if_pos hb]
    rcases hg : generate_report (pr.add_error "An error occurred during restructuring")
        with _ | rep
    · simp
    · by_cases hr : (restore_from_backup dry st).2 = true <;> simp [hr]
  · rw [if_neg hb]
    rcases hg : generate_report (pr.add_error "An error occurred during restructuring")
        with _ | rep
    · simp
    · simp

/-! ## Claim C6: CSS bucketing -/

/-- C6 (counterexample): the claim says a name containing neither the
effects keyword nor the ui keyword goes to the default components bucket,
but the ui group also matches the keyword vpr-system: the file
vpr-system.css contains neither "effects" nor "ui" and is still routed to
the ui bucket, not to components. -/
theorem C6_counterexample :
    strContains (strLower "vpr-system.css") "effects" = false
    ∧ strContains (strLower "vpr-system.css") "ui" = false
    ∧ css_bucket "vpr-system.css" = "ui"
    ∧ css_bucket "vpr-system.css" ≠ "components" := by decide

/-- C6 (amended): bucketing is a case-insensitive substring match in fixed
priority order against two keyword groups, {effects, vpr-effects} and
{ui, vpr-system}.  The first group collapses to the single keyword
"effects" (every name containing "vpr-effects" contains "effects"), so a
name goes to effects iff it contains "effects", otherwise to ui iff it
contains "ui" or "vpr-system", and otherwise to components; in particular
combat-effects.css routes to effects, main-ui-panel.css to ui, and
panel.css to components. -/
theorem C6_bucketing_amended (name : String) :
    css_bucket name
      = (if strContains (strLower name) "effects" then "effects"
         else if strContains (strLower name) "ui"
             || strContains (strLower name) "vpr-system" then "ui"
         else "components")
    ∧ css_bucket "combat-effects.css" = "effects"
    ∧ css_bucket "main-ui-panel.css" = "ui"
    ∧ css_bucket "panel.css" = "components" := by
  refine ⟨?_, by decide, by decide, by decide⟩
  cases hx : strContains (strLower name) "effects" with
  | true => simp [css_bucket, hx]
  | false =>
    have hv : strContains (strLower name) "vpr-effects" = false := by
      cases hc : strContains (strLower name) "vpr-effects" with
      | false => rfl
      | true =>
        exfalso
        have hsplit : ("vpr-effects" : String).data
            = ("vpr-" : String).data ++ ("effects" : String).data := by decide
        have : strContains (strLower name) "effects" = true := by
          unfold strContains at hc ⊢
          rw [hsplit] at hc
          exact chContains_mono _ hc
        rw [hx] at this
        exact Bool.noConfusion this
    simp [css_bucket, hx, hv]

/-! ## Claim C5: the disk-space gate -/

/-- C5: the run aborts before any filesystem mutation whenever the free
space F is below S x 2 x 1.2 for a run that will make a backup
(non-simulate) or S x 1.2 otherwise, and the disk-space check passes in
every other case: the check returns false exactly on the shortfall against
`required_space` (the source's `size * (2 if backup else 1) * 1.2`), and a
shortfall makes `main` return with the state untouched, possibly after the
equally read-only environment check. -/
theorem C5_disk_space_gate (st : FileSys) (free : Nat) (b : Bool) :
    (check_disk_space st free b = false
        ↔ (free : Rat) < required_space (src_size st) b)
    ∧ ((free : Rat) < required_space (src_size st) b →
        (main_run (!b) none free st).st = st
        ∧ ((main_run (!b) none free st).outcome = Outcome.abortedEnv
            ∨ (main_run (!b) none free st).outcome = Outcome.abortedDisk)) := by
  have hbridge : free * 5 < src_size st * (if b then 2 else 1) * 6
      ↔ (free : Rat) < required_space (src_size st) b := by
    unfold required_space
    cases b with
    | true =>
      rw [if_pos rfl, if_pos rfl]
      rw [show (src_size st : Rat) * 2 * (12 / 10) = ((src_size st * 2 * 6 : Nat) : Rat) / 5 by
        push_cast; ring]
      rw [lt_div_iff (by norm_num : (0 : Rat) < 5)]
      rw [show ((free : Rat) * 5) = ((free * 5 : Nat) : Rat) by push_cast; ring]
      exact (Nat.cast_lt (α := Rat)).symm
    | false =>
      rw [if_neg (by simp), if_neg (by simp)]
      rw [show (src_size st : Rat) * 1 * (12 / 10) = ((src_size st * 1 * 6 : Nat) : Rat) / 5 by
        push_cast; ring]
      rw [lt_div_iff (by norm_num : (0 : Rat) < 5)]
      rw [show ((free : Rat) * 5) = ((free * 5 : Nat) : Rat) by push_cast; ring]
      exact (Nat.cast_lt (α := Rat)).symm
  constructor
  · unfold check_disk_space
    by_cases h : free * 5 < src_size st * (if b then 2 else 1) * 6
    · rw [if_pos h]
      exact iff_of_true rfl (hbridge.mp h)
    · rw [if_neg h]
      exact iff_of_false (by simp) (fun hc => h (hbridge.mpr hc))
  · intro h
    by_cases henv : validate_environment st = true
    · have hd : check_disk_space st free (!(!b)) = false := by
        rw [Bool.not_not]
        unfold check_disk_space
        rw [if_pos (hbridge.mpr h)]
      rw [main_run_disk_fail henv hd none]
      exact ⟨rfl, Or.inr rfl⟩
    · have henv2 : validate_environment st = false := by
        cases hx : validate_environment st
        · rfl
        · exact absurd hx henv
      rw [main_run_env_fail henv2]
      exact ⟨rfl, Or.inl rfl⟩

def C5_state : FileSys :=
  { files := [("src/a.ts", "0123456789")], dirs := ["src"], backup := none }

/-- Witness for C5 at a concrete state: ten bytes under `src`, backup
enabled, five units free; the check fails and the run leaves the state
untouched. -/
theorem C5_witness :
    check_disk_space C5_state 5 true = false
    ∧ (main_run false none 5 C5_state).st = C5_state := by
  have hs : src_size C5_state = 10 := by decide
  have h : ((5 : Nat) : Rat) < required_space (src_size C5_state) true := by
    rw [hs]
    unfold required_space
    norm_num
  exact ⟨(C5_disk_space_gate C5_state 5 true).1.mpr h,
    ((C5_disk_space_gate C5_state 5 true).2 h).1⟩

/-! ## Claim C4: exit status on aborts -/

theorem handle_exception_exit_iff (dry bc : Bool) (st : FileSys) (pr : ProgressTracker) :
    (handle_exception dry bc st pr).exitCode ≠ 0
      ↔ ((handle_exception dry bc st pr).outcome = Outcome.badCwd
          ∨ (handle_exception dry bc st pr).outcome = Outcome.crashed) := by
  unfold handle_exception
  by_cases hb : (bc && !dry) = true
  · rw [if_pos hb]
    rcases hg : generate_report (pr.add_error "An error occurred during restructuring")
        with _ | rep
    · simp
    · by_cases hr : (restore_from_backup dry st).2 = true <;> simp [hr]
  · rw [if_neg hb]
    rcases hg : generate_report (pr.add_error "An error occurred during restructuring")
        with _ | rep
    · simp
    · simp

def C4_state : FileSys := { files := [], dirs := ["src"], backup := none }

/-- C4 (counterexample): a required subdirectory missing
(`src/components` absent while `src` exists) is an abort condition, yet the
process ends with exit status 0: `main` aborts with a plain `return`, and
only the `__main__` guard ever calls `sys.exit(1)`. -/
theorem C4_counterexample :
    (run_script false none 100 C4_state).outcome = Outcome.abortedEnv
    ∧ (run_script false none 100 C4_state).exitCode = 0 := by decide

/-- C4 (amended): the exit status is non-zero exactly when the run stops at
the project-root guard (wrong working directory) or dies of the uncaught
report exception; every abort inside `main` — missing required
subdirectory, insufficient disk space, backup failure, rollback — returns
normally with exit status 0. -/
theorem C4_exit_code_amended (dry : Bool) (fa : Option Nat) (free : Nat) (st : FileSys) :
    (run_script dry fa free st).exitCode ≠ 0
      ↔ ((run_script dry fa free st).outcome = Outcome.badCwd
          ∨ (run_script dry fa free st).outcome = Outcome.crashed) := by
  unfold run_script
  by_cases hsrc : isdir st "src" = true
  · simp only [hsrc, Bool.not_true, Bool.false_eq_true, if_false]
    by_cases henv : validate_environment st = true
    · by_cases hdisk : check_disk_space st free (!dry) = true
      · rw [main_run_go henv hdisk fa]
        unfold migrate_and_finish
        rcases hPm : process_file_moves dry fa
            (create_new_directories dry (create_backup dry st).1)
            ProgressTracker.init with r | r
        · simp only [hPm]
          exact handle_exception_exit_iff dry (create_backup dry st).2 r.1 r.2
        · simp only [hPm]
          rcases hg : generate_report (reorganize_styles dry r.1 r.2).2 with _ | rep
          · simp only [hg]
            exact handle_exception_exit_iff dry (create_backup dry st).2 _ _
          · simp only [hg]
            simp
      · have hd2 : check_disk_space st free (!dry) = false := by
          cases hx : check_disk_space st free (!dry)
          · rfl
          · exact absurd hx hdisk
        rw [main_run_disk_fail henv hd2 fa]
        simp
    · have henv2 : validate_environment st = false := by
        cases hx : validate_environment st
        · rfl
        · exact absurd hx henv
      rw [main_run_env_fail henv2]
      simp
  · simp only [hsrc, Bool.not_false, if_true, Bool.not_eq_true]
    simp

/-! ## Claim C9: the report generator -/

def C9_state : FileSys :=
  { files := [], dirs := ["src", "src/components", "src/components/factions"],
    backup := none }

set_option maxRecDepth 40000 in
set_option maxHeartbeats 4000000 in
/-- C9: the success-rate computation divides by the total without a guard,
so a run with zero planned operations (no actionable mapped moves, no loose
CSS files) raises `ZeroDivisionError` inside `generate_report`: no report is
produced, the exception escapes the second report attempt of the handler,
and the process dies with a traceback (exit status 1). -/
theorem C9_report_crash :
    generate_report ProgressTracker.init = none
    ∧ (main_run false none 100 C9_state).tracker.total_operations = 0
    ∧ generate_report (main_run false none 100 C9_state).tracker = none
    ∧ (main_run false none 100 C9_state).outcome = Outcome.crashed
    ∧ (main_run false none 100 C9_state).exitCode = 1 := by decide

/-! ## Claim C10: silent overwrite in the style re-bucketer -/

def C10_state : FileSys :=
  { files := [("src/styles/panel.css", "new contents"),
              ("src/styles/components/panel.css", "old contents")],
    dirs := ["src", "src/components", "src/components/factions",
             "src/styles", "src/styles/components"],
    backup := none }

set_option maxRecDepth 40000 in
set_option maxHeartbeats 4000000 in
/-- C10: when a top-level stylesheet and a same-named file inside its
destination bucket both exist, the re-bucketer moves the top-level file
onto the bucket file, silently replacing its contents, with no error and no
warning recorded — and the both-exist validation never looks at bucketing
moves (it reports no issue on this state). -/
theorem C10_silent_overwrite :
    (main_run false none 1000 C10_state).outcome = Outcome.success
    ∧ fsLookup (main_run false none 1000 C10_state).st.files
        "src/styles/components/panel.css" = some "new contents"
    ∧ fsLookup (main_run false none 1000 C10_state).st.files
        "src/styles/panel.css" = none
    ∧ (main_run false none 1000 C10_state).tracker.errors = []
    ∧ (main_run false none 1000 C10_state).tracker.warnings = []
    ∧ (validate_file_moves C10_state).1 = true := by decide

/-! ## Claim C2: simulate mode -/

theorem contains_eq_true_of_mem {l : List String} {a : String} (h : a ∈ l) :
    l.contains a = true :=
  List.contains_iff_exists_mem_beq.mpr ⟨a, h, by simp⟩

theorem contains_congr {A B : List String} {p : String} (h : p ∈ A ↔ p ∈ B) :
    A.contains p = B.contains p := by
  by_cases hA : p ∈ A
  · rw [contains_eq_true_of_mem hA, contains_eq_true_of_mem (h.mp hA)]
  · rw [contains_false_of_not_mem hA, contains_false_of_not_mem (fun hB => hA (h.mpr hB))]

theorem handle_exception_total (dry bc : Bool) (st : FileSys) (pr : ProgressTracker) :
    (handle_exception dry bc st pr).tracker.total_operations = pr.total_operations := by
  unfold handle_exception
  by_cases hb : (bc && !dry) = true
  · rw [if_pos hb]
    rcases hg : generate_report (pr.add_error "An error occurred during restructuring")
        with _ | rep <;> simp [hg, ProgressTracker.add_error]
  · rw [if_neg hb]
    rcases hg : generate_report (pr.add_error "An error occurred during restructuring")
        with _ | rep <;> simp [hg, ProgressTracker.add_error]

theorem handle_exception_st_dry (bc : Bool) (st : FileSys) (pr : ProgressTracker) :
    (handle_exception true bc st pr).st = st := by
  unfold handle_exception
  rw [if_neg (by simp)]
  rcases hg : generate_report (pr.add_error "An error occurred during restructuring")
      with _ | rep <;> simp [hg]

/-- A dry run never mutates the filesystem state, whatever happens. -/
theorem main_run_dry_state (fa : Option Nat) (free : Nat) (st : FileSys) :
    (main_run true fa free st).st = st := by
  by_cases henv : validate_environment st = true
  · by_cases hdisk : check_disk_space st free (!true) = true
    · rw [main_run_go henv hdisk fa]
      unfold migrate_and_finish
      have hcb : create_backup true st = (st, false) := rfl
      have hcd : create_new_directories true st = st := rfl
      rw [hcb]
      simp only [hcd]
      rcases hfa : fa with _ | k
      · rw [process_file_moves_none]
        have hst : (run_moves true (moves_needed st) st
            (ProgressTracker.init.set_total (moves_needed st).length)).1 = st :=
          run_moves_dry _ _ _
        rcases hg : generate_report (reorganize_styles true
            (run_moves true (moves_needed st) st
              (ProgressTracker.init.set_total (moves_needed st).length)).1
            (run_moves true (moves_needed st) st
              (ProgressTracker.init.set_total (moves_needed st).length)).2).2 with _ | rep
        · simp only [hg, Bool.not_true, Bool.false_and, Bool.false_eq_true, if_false]
          rw [handle_exception_st_dry, reorganize_styles_dry, hst]
        · simp only [hg, Bool.not_true, Bool.false_and, Bool.false_eq_true, if_false]
          rw [reorganize_styles_dry, hst]
      · unfold process_file_moves
        by_cases hk : k < (moves_needed st).length
        · simp only [hk, if_pos]
          rw [handle_exception_st_dry, run_moves_dry]
        · simp only [hk, Bool.false_eq_true, if_false]
          have hst : (run_moves true (moves_needed st) st
              (ProgressTracker.init.set_total (moves_needed st).length)).1 = st :=
            run_moves_dry _ _ _
          rcases hg : generate_report (reorganize_styles true
              (run_moves true (moves_needed st) st
                (ProgressTracker.init.set_total (moves_needed st).length)).1
              (run_moves true (moves_needed st) st
                (ProgressTracker.init.set_total (moves_needed st).length)).2).2 with _ | rep
          · simp only [hg, Bool.not_true, Bool.false_and, Bool.false_eq_true, if_false]
            rw [handle_exception_st_dry, reorganize_styles_dry, hst]
          · simp only [hg, Bool.not_true, Bool.false_and, Bool.false_eq_true, if_false]
            rw [reorganize_styles_dry, hst]
    · have hd2 : check_disk_space st free (!true) = false := by
        cases hx : check_disk_space st free (!true)
        · rfl
        · exact absurd hx hdisk
      rw [main_run_disk_fail henv hd2 fa]
  · have henv2 : validate_environment st = false := by
      cases hx : validate_environment st
      · rfl
      · exact absurd hx henv
    rw [main_run_env_fail henv2]

/-- The computed total of one migration (no injected failure): the number
of actionable moves plus, when the styles root is a directory at the time
of the scan, the number of loose CSS files then present. -/
theorem migrate_total (dry : Bool) (st1 : FileSys) (bc : Bool) :
    (migrate_and_finish dry none st1 bc).tracker.total_operations
      = (moves_needed (create_new_directories dry st1)).length
        + (if isdir (run_moves dry (moves_needed (create_new_directories dry st1))
                (create_new_directories dry st1)
                (ProgressTracker.init.set_total
                  (moves_needed (create_new_directories dry st1)).length)).1
              styles_root = true
           then (top_css_names (run_moves dry (moves_needed (create_new_directories dry st1))
                (create_new_directories dry st1)
                (ProgressTracker.init.set_total
                  (moves_needed (create_new_directories dry st1)).length)).1.files).length
           else 0) := by
  unfold migrate_and_finish
  simp only [process_file_moves_none]
  set st2 := create_new_directories dry st1 with hst2
  set R := run_moves dry (moves_needed st2) st2
      (ProgressTracker.init.set_total (moves_needed st2).length) with hR
  have hRtot : R.2.total_operations = (moves_needed st2).length := by
    rw [hR, run_moves_total]
    rfl
  have htot : (reorganize_styles dry R.1 R.2).2.total_operations
      = (moves_needed st2).length
        + (if isdir R.1 styles_root = true
            then (top_css_names R.1.files).length else 0) := by
    rw [reorganize_styles_total]
    by_cases hs : isdir R.1 styles_root = true
    · rw [if_pos hs, if_pos hs, hRtot]
    · rw [if_neg hs, if_neg hs, hRtot, Nat.add_zero]
  rcases hg : generate_report (reorganize_styles dry R.1 R.2).2 with _ | rep
  · simp only [hg]
    rw [handle_exception_total, htot]
  · simp only [hg]
    exact htot

theorem mem_of_contains {l : List String} {a : String} (h : l.contains a = true) :
    a ∈ l := by
  obtain ⟨b, hb, he⟩ := List.contains_iff_exists_mem_beq.mp h
  simp only [beq_iff_eq] at he
  exact he ▸ hb

theorem check_disk_space_mono {st : FileSys} {free : Nat}
    (h : check_disk_space st free true = true) : check_disk_space st free false = true := by
  have h1 : check_disk_space st free true
      = (if free * 5 < src_size st * 2 * 6 then false else true) := rfl
  have h2 : check_disk_space st free false
      = (if free * 5 < src_size st * 1 * 6 then false else true) := rfl
  rw [h1] at h
  rw [h2]
  by_cases hc : free * 5 < src_size st * 1 * 6
  · exfalso
    have hc2 : free * 5 < src_size st * 2 * 6 := by omega
    rw [if_pos hc2] at h
    exact Bool.noConfusion h
  · rw [if_neg hc]

/-- C2 (amended): simulate-only mode performs zero filesystem mutations on
every starting state; and whenever the real run would pass its disk-space
gate (free space at least S x 2 x 1.2) — and loose stylesheets exist only
when the styles directory exists, as on any real filesystem — the simulate
run's computed total-operations count equals the real run's.  (A real run
aborted by the gate performs zero operations while the simulate run, whose
gate uses the no-backup factor, may still report the full planned count:
see the counterexample.) -/
theorem C2_simulate_amended (st : FileSys) (free : Nat)
    (hstyles : isdir st styles_root = true ∨ top_css_names st.files = [])
    (hdisk : check_disk_space st free true = true) :
    (main_run true none free st).st = st
    ∧ (main_run true none free st).tracker.total_operations
        = (main_run false none free st).tracker.total_operations := by
  refine ⟨main_run_dry_state none free st, ?_⟩
  by_cases henv : validate_environment st = true
  · have hdry := check_disk_space_mono hdisk
    rw [main_run_go henv (show check_disk_space st free (!true) = true from hdry) none,
      main_run_go henv (show check_disk_space st free (!false) = true from hdisk) none]
    have e1 : migrate_and_finish true none (create_backup true st).1 (create_backup true st).2
        = migrate_and_finish true none st false := rfl
    have e2 : migrate_and_finish false none (create_backup false st).1 (create_backup false st).2
        = migrate_and_finish false none
            { st with backup := some (src_files st, src_dirs st) } true := rfl
    rw [e1, e2, migrate_total, migrate_total]
    have hcndd : create_new_directories true st = st := rfl
    rw [hcndd, run_moves_dry]
    set stB : FileSys := { st with backup := some (src_files st, src_dirs st) } with hstB
    set st2r := create_new_directories false stB with hst2r
    have hfilesB : stB.files = st.files := rfl
    have hdirsB : stB.dirs = st.dirs := rfl
    have hf2 : st2r.files = st.files := by rw [hst2r, cnd_files, hfilesB]
    have hLr : moves_needed st2r = moves_needed st := by
      unfold moves_needed
      apply List.filter_congr
      intro m hm
      have hp1 : pathExists st2r m.1 = pathExists st m.1 := by
        unfold pathExists
        rw [hf2]
        have hdc : st2r.dirs.contains m.1 = st.dirs.contains m.1 := by
          apply contains_congr
          constructor
          · intro hmem
            rcases cnd_dirs false stB m.1 (hst2r ▸ hmem) with h1 | h1
            · exact hdirsB ▸ h1
            · exact absurd rfl (ne_of_dot (mapped_hasDot hm).1 (new_dirs_dotfree h1))
          · intro hmem
            exact hst2r ▸ cnd_dirs_mono false stB m.1 (hdirsB ▸ hmem)
        rw [hdc]
      have hp2 : pathExists st2r m.2 = pathExists st m.2 := by
        unfold pathExists
        rw [hf2]
        have hdc : st2r.dirs.contains m.2 = st.dirs.contains m.2 := by
          apply contains_congr
          constructor
          · intro hmem
            rcases cnd_dirs false stB m.2 (hst2r ▸ hmem) with h1 | h1
            · exact hdirsB ▸ h1
            · exact absurd rfl (ne_of_dot (mapped_hasDot hm).2 (new_dirs_dotfree h1))
          · intro hmem
            exact hst2r ▸ cnd_dirs_mono false stB m.2 (hdirsB ▸ hmem)
        rw [hdc]
      rw [hp1, hp2]
    set Rr := run_moves false (moves_needed st2r) st2r
        (ProgressTracker.init.set_total (moves_needed st2r).length) with hRr
    have hcss : top_css_names Rr.1.files = top_css_names st.files := by
      rw [hRr, run_moves_top_css (moves_needed st2r)
        (fun m hm => mapped_not_styles (moves_needed_mem_FILE_MOVES hm)) st2r _, hf2]
    rw [hLr]
    rcases hstyles with hs | hc
    · have hmem : "src/styles" ∈ st.dirs := mem_of_contains hs
      have hRdir : isdir Rr.1 styles_root = true := by
        apply contains_eq_true_of_mem
        rw [hRr]
        apply run_moves_dirs_mono
        rw [hst2r]
        apply cnd_dirs_mono
        exact hmem
      rw [if_pos hs, if_pos hRdir, hcss]
    · rw [hcss, hc]
      simp
  · have henv2 : validate_environment st = false := by
      cases hx : validate_environment st
      · rfl
      · exact absurd hx henv
    rw [main_run_env_fail henv2, main_run_env_fail henv2]

def C2_state : FileSys :=
  { files := [("src/components/factions/types/FactionTypes.ts", "0123456789")],
    dirs := ["src", "src/components", "src/components/factions"], backup := none }

set_option maxRecDepth 40000 in
set_option maxHeartbeats 4000000 in
/-- C2 (counterexample): with ten bytes under `src` and 13 units free, the
simulate run passes its gate (it checks with the no-backup factor), reports
one planned and completed operation and succeeds — while a real run on the
same state is aborted by the disk gate and performs zero operations.  The
simulate run's reported total does not equal what a real run would have
performed, refuting the claim as stated. -/
theorem C2_counterexample :
    (main_run true none 13 C2_state).st = C2_state
    ∧ (main_run true none 13 C2_state).outcome = Outcome.success
    ∧ (main_run true none 13 C2_state).tracker.total_operations = 1
    ∧ (main_run true none 13 C2_state).tracker.completed_operations = 1
    ∧ (main_run false none 13 C2_state).outcome = Outcome.abortedDisk
    ∧ (main_run false none 13 C2_state).tracker.total_operations = 0
    ∧ (main_run false none 13 C2_state).tracker.completed_operations = 0
    ∧ (main_run false none 13 C2_state).st = C2_state := by decide

set_option maxRecDepth 40000 in
/-- Witness for the amended C2 at a concrete state (one actionable mapped
move, no styles directory, ample free space). -/
theorem C2_witness :
    (main_run true none 1000 C2_state).st = C2_state
    ∧ (main_run true none 1000 C2_state).tracker.total_operations
        = (main_run false none 1000 C2_state).tracker.total_operations :=
  C2_simulate_amended C2_state 1000 (Or.inr (by decide)) (by decide)

/-! ## Claim C7: structural conflicts -/

theorem vfm_step_false {st : FileSys} {acc : Bool × List String} {pr : String × String}
    (h : acc.1 = false) : (vfm_step st acc pr).1 = false := by
  unfold vfm_step
  by_cases h1 : (pathExists st pr.2 && !pathExists st pr.1) = true
  · rw [if_pos h1]; exact h
  · rw [if_neg h1]
    by_cases h2 : (!pathExists st pr.1 && !pathExists st pr.2) = true
    · rw [if_pos h2]; exact h
    · rw [if_neg h2]
      by_cases h3 : (pathExists st pr.1 && pathExists st pr.2) = true
      · rw [if_pos h3]
        rcases hf : (parents_of pr.2).find? (fun par => isfile st par) with _ | par <;> simp [hf]
      · rw [if_neg h3]
        rcases hf : (parents_of pr.2).find? (fun par => isfile st par) with _ | par <;>
          simp [hf, h]

theorem vfm_step_log_mono {st : FileSys} {acc : Bool × List String} {pr : String × String}
    {e : String} (h : e ∈ acc.2) : e ∈ (vfm_step st acc pr).2 := by
  unfold vfm_step
  by_cases h1 : (pathExists st pr.2 && !pathExists st pr.1) = true
  · rw [if_pos h1]; exact h
  · rw [if_neg h1]
    by_cases h2 : (!pathExists st pr.1 && !pathExists st pr.2) = true
    · rw [if_pos h2]; exact h
    · rw [if_neg h2]
      by_cases h3 : (pathExists st pr.1 && pathExists st pr.2) = true
      · rw [if_pos h3]
        rcases hf : (parents_of pr.2).find? (fun par => isfile st par) with _ | par <;>
          simp [hf, List.mem_append, h]
      · rw [if_neg h3]
        rcases hf : (parents_of pr.2).find? (fun par => isfile st par) with _ | par <;>
          simp [hf, List.mem_append, h]

theorem vfm_step_conflict {st : FileSys} (acc : Bool × List String)
    {pr : String × String} (hs : pathExists st pr.1 = true) (hd : pathExists st pr.2 = true) :
    (vfm_step st acc pr).1 = false
    ∧ ("Both source and destination exist: " ++ pr.1 ++ " -> " ++ pr.2)
        ∈ (vfm_step st acc pr).2 := by
  unfold vfm_step
  rw [if_neg (by simp [hs]), if_neg (by simp [hs]), if_pos (by simp [hs, hd])]
  rcases hf : (parents_of pr.2).find? (fun par => isfile st par) with _ | par <;>
    simp [hf, List.mem_append]

theorem vfm_fold_false {st : FileSys} :
    ∀ (L : List (String × String)) (acc : Bool × List String), acc.1 = false →
      (L.foldl (vfm_step st) acc).1 = false := by
  intro L
  induction L with
  | nil => intro acc h; exact h
  | cons a t ih =>
    intro acc h
    rw [List.foldl_cons]
    exact ih _ (vfm_step_false h)

theorem vfm_fold_log_mono {st : FileSys} :
    ∀ (L : List (String × String)) (acc : Bool × List String) (e : String), e ∈ acc.2 →
      e ∈ (L.foldl (vfm_step st) acc).2 := by
  intro L
  induction L with
  | nil => intro acc e h; exact h
  | cons a t ih =>
    intro acc e h
    rw [List.foldl_cons]
    exact ih _ _ (vfm_step_log_mono h)

theorem vfm_fold_conflict {st : FileSys} :
    ∀ (L : List (String × String)) (acc : Bool × List String) (pr : String × String),
      pr ∈ L → pathExists st pr.1 = true → pathExists st pr.2 = true →
      (L.foldl (vfm_step st) acc).1 = false
      ∧ ("Both source and destination exist: " ++ pr.1 ++ " -> " ++ pr.2)
          ∈ (L.foldl (vfm_step st) acc).2 := by
  intro L
  induction L with
  | nil => intro acc pr hm; cases hm
  | cons a t ih =>
    intro acc pr hm hs hd
    rw [List.foldl_cons]
    rcases List.mem_cons.mp hm with hma | hmt
    · subst hma
      have hstep := vfm_step_conflict acc hs hd
      exact ⟨vfm_fold_false t _ hstep.1, vfm_fold_log_mono t _ _ hstep.2⟩
    · exact ih _ pr hmt hs hd

theorem vfm_step_parent {st : FileSys} (acc : Bool × List String)
    {pr : String × String} {par : String} (hs : pathExists st pr.1 = true)
    (hfind : (parents_of pr.2).find? (fun q => isfile st q) = some par) :
    (vfm_step st acc pr).1 = false
    ∧ ("Parent path is a file: " ++ par) ∈ (vfm_step st acc pr).2 := by
  unfold vfm_step
  rw [if_neg (by simp [hs]), if_neg (by simp [hs])]
  by_cases h3 : (pathExists st pr.1 && pathExists st pr.2) = true
  · rw [if_pos h3]
    simp [hfind, List.mem_append]
  · rw [if_neg h3]
    simp [hfind, List.mem_append]

theorem vfm_fold_parent {st : FileSys} :
    ∀ (L : List (String × String)) (acc : Bool × List String) (pr : String × String)
      (par : String), pr ∈ L → pathExists st pr.1 = true →
      (parents_of pr.2).find? (fun q => isfile st q) = some par →
      (L.foldl (vfm_step st) acc).1 = false
      ∧ ("Parent path is a file: " ++ par) ∈ (L.foldl (vfm_step st) acc).2 := by
  intro L
  induction L with
  | nil => intro acc pr par hm; cases hm
  | cons a t ih =>
    intro acc pr par hm hs hfind
    rw [List.foldl_cons]
    rcases List.mem_cons.mp hm with hma | hmt
    · subst hma
      have hstep := vfm_step_parent acc hs hfind
      exact ⟨vfm_fold_false t _ hstep.1, vfm_fold_log_mono t _ _ hstep.2⟩
    · exact ih _ pr par hmt hs hfind

theorem conflict_msg_ne_mkdir (s d dd : String) :
    "Both source and destination exist: " ++ s ++ " -> " ++ d
      ≠ "Error creating destination directory " ++ dd := by
  intro he
  have hd2 := congrArg String.data he
  simp only [String.data_append, List.cons_append, List.append_assoc] at hd2
  injection hd2 with hB _
  exact absurd hB (by decide)

theorem conflict_msg_ne_handler (s d : String) :
    "Both source and destination exist: " ++ s ++ " -> " ++ d
      ≠ "An error occurred during restructuring" := by
  intro he
  have hd2 := congrArg String.data he
  simp only [String.data_append, List.cons_append, List.append_assoc] at hd2
  injection hd2 with hB _
  exact absurd hB (by decide)

theorem parent_msg_ne_mkdir (par dd : String) :
    "Parent path is a file: " ++ par
      ≠ "Error creating destination directory " ++ dd := by
  intro he
  have hd2 := congrArg String.data he
  simp only [String.data_append, List.cons_append, List.append_assoc] at hd2
  injection hd2 with hB _
  exact absurd hB (by decide)

theorem parent_msg_ne_handler (par : String) :
    "Parent path is a file: " ++ par
      ≠ "An error occurred during restructuring" := by
  intro he
  have hd2 := congrArg String.data he
  simp only [String.data_append, List.cons_append, List.append_assoc] at hd2
  injection hd2 with hB _
  exact absurd hB (by decide)

theorem handle_exception_errors (dry bc : Bool) (st : FileSys) (pr : ProgressTracker) :
    ∀ e ∈ (handle_exception dry bc st pr).tracker.errors,
      e ∈ pr.errors ∨ e = "An error occurred during restructuring" := by
  intro e he
  unfold handle_exception at he
  by_cases hb : (bc && !dry) = true
  · rw [if_pos hb] at he
    rcases hg : generate_report (pr.add_error "An error occurred during restructuring")
        with _ | rep <;>
      rw [hg] at he <;>
      simp only [ProgressTracker.add_error, List.mem_append,
        List.mem_singleton] at he <;>
      exact he
  · rw [if_neg hb] at he
    rcases hg : generate_report (pr.add_error "An error occurred during restructuring")
        with _ | rep <;>
      rw [hg] at he <;>
      simp only [ProgressTracker.add_error, List.mem_append,
        List.mem_singleton] at he <;>
      exact he

theorem process_file_moves_some_ge {k : Nat} {st : FileSys} (dry : Bool)
    (pr : ProgressTracker) (hk : ¬ k < (moves_needed st).length) :
    process_file_moves dry (some k) st pr
      = Except.ok (run_moves dry (moves_needed st) st
          (pr.set_total (moves_needed st).length)) := by
  simp [process_file_moves, hk]

/-- Every message in the tracker's error list at the end of a run is either
a destination-directory creation failure or the top-level handler message:
structural conflicts never reach it. -/
theorem main_run_errors (dry : Bool) (fa : Option Nat) (free : Nat) (st : FileSys) :
    ∀ e ∈ (main_run dry fa free st).tracker.errors,
      (∃ dd, e = "Error creating destination directory " ++ dd)
      ∨ e = "An error occurred during restructuring" := by
  intro e he
  by_cases henv : validate_environment st = true
  · by_cases hdisk : check_disk_space st free (!dry) = true
    · rw [main_run_go henv hdisk fa] at he
      unfold migrate_and_finish at he
      have hbase : ∀ (L : List (String × String)) (st2 : FileSys) (n : Nat),
          ∀ e1 ∈ (run_moves dry L st2 (ProgressTracker.init.set_total n)).2.errors,
            ∃ dd, e1 = "Error creating destination directory " ++ dd := by
        intro L st2 n e1 he1
        rcases run_moves_errors dry L st2 _ e1 he1 with h1 | h1
        · simp [ProgressTracker.set_total, ProgressTracker.init] at h1
        · exact h1
      have hstyled : ∀ (R : FileSys × ProgressTracker),
          (∀ e1 ∈ R.2.errors, ∃ dd, e1 = "Error creating destination directory " ++ dd) →
          ∀ e1 ∈ (reorganize_styles dry R.1 R.2).2.errors,
            ∃ dd, e1 = "Error creating destination directory " ++ dd := by
        intro R hR e1 he1
        rcases reorganize_styles_errors dry R.1 R.2 e1 he1 with h1 | h1
        · exact hR e1 h1
        · exact h1
      rcases hfa : fa with _ | k
      · rw [hfa] at he
        simp only [process_file_moves_none] at he
        rcases hg : generate_report (reorganize_styles dry
            (run_moves dry (moves_needed (create_new_directories dry (create_backup dry st).1))
              (create_new_directories dry (create_backup dry st).1)
              (ProgressTracker.init.set_total
                (moves_needed (create_new_directories dry (create_backup dry st).1)).length)).1
            (run_moves dry (moves_needed (create_new_directories dry (create_backup dry st).1))
              (create_new_directories dry (create_backup dry st).1)
              (ProgressTracker.init.set_total
                (moves_needed (create_new_directories dry (create_backup dry st).1)).length)).2).2
            with _ | rep
        · simp only [hg] at he
          rcases handle_exception_errors _ _ _ _ e he with h1 | h1
          · exact Or.inl (hstyled _ (hbase _ _ _) e h1)
          · exact Or.inr h1
        · simp only [hg] at he
          exact Or.inl (hstyled _ (hbase _ _ _) e he)
      · by_cases hk : k < (moves_needed (create_new_directories dry (create_backup dry st).1)).length
        · rw [hfa] at he
          simp only [process_file_moves_some_lt dry ProgressTracker.init hk] at he
          rcases handle_exception_errors _ _ _ _ e he with h1 | h1
          · have : ∀ e1 ∈ (run_moves dry
                ((moves_needed (create_new_directories dry (create_backup dry st).1)).take k)
                (create_new_directories dry (create_backup dry st).1)
                (ProgressTracker.init.set_total
                  (moves_needed (create_new_directories dry (create_backup dry st).1)).length)).2.errors,
                ∃ dd, e1 = "Error creating destination directory " ++ dd := by
              intro e1 he1
              rcases run_moves_errors dry _ _ _ e1 he1 with h2 | h2
              · simp [ProgressTracker.set_total, ProgressTracker.init] at h2
              · exact h2
            exact Or.inl (this e h1)
          · exact Or.inr h1
        · rw [hfa] at he
          simp only [process_file_moves_some_ge dry ProgressTracker.init hk] at he
          rcases hg : generate_report (reorganize_styles dry
              (run_moves dry (moves_needed (create_new_directories dry (create_backup dry st).1))
                (create_new_directories dry (create_backup dry st).1)
                (ProgressTracker.init.set_total
                  (moves_needed (create_new_directories dry (create_backup dry st).1)).length)).1
              (run_moves dry (moves_needed (create_new_directories dry (create_backup dry st).1))
                (create_new_directories dry (create_backup dry st).1)
                (ProgressTracker.init.set_total
                  (moves_needed (create_new_directories dry (create_backup dry st).1)).length)).2).2
              with _ | rep
          · simp only [hg] at he
            rcases handle_exception_errors _ _ _ _ e he with h1 | h1
            · exact Or.inl (hstyled _ (hbase _ _ _) e h1)
            · exact Or.inr h1
          · simp only [hg] at he
            exact Or.inl (hstyled _ (hbase _ _ _) e he)
    · have hd2 : check_disk_space st free (!dry) = false := by
        cases hx : check_disk_space st free (!dry)
        · rfl
        · exact absurd hx hdisk
      rw [main_run_disk_fail henv hd2 fa] at he
      simp [ProgressTracker.init] at he
  · have henv2 : validate_environment st = false := by
      cases hx : validate_environment st
      · rfl
      · exact absurd hx henv
    rw [main_run_env_fail henv2] at he
    simp [ProgressTracker.init] at he

/-- C7 (amended): a mapped pair whose source still exists is examined by the
validator (already-migrated and missing pairs are skipped by the two
`continue`s before any check, so their ancestor conflicts are never logged).
For an examined pair, a destination that also exists is logged as a
both-exist error, and the first destination ancestor that is a plain file
(the walk goes from the immediate parent upward) is logged as a
parent-is-a-file error; either finding makes the validator return "issues
found".  Neither conflict by itself halts the batch — `main` ignores the
validator's verdict — and neither message ever reaches the progress
tracker's error list, which is what the final report enumerates: that list
only ever holds per-move directory-creation failures and the top-level
handler message. -/
theorem C7_conflict_amended (st : FileSys) (free : Nat) (s d : String)
    (hmem : (s, d) ∈ FILE_MOVES)
    (hs : pathExists st s = true) :
    (pathExists st d = true →
      (validate_file_moves st).1 = false
      ∧ ("Both source and destination exist: " ++ s ++ " -> " ++ d)
          ∈ (validate_file_moves st).2
      ∧ ("Both source and destination exist: " ++ s ++ " -> " ++ d)
          ∉ (main_run false none free st).tracker.errors)
    ∧ (∀ par, (parents_of d).find? (fun q => isfile st q) = some par →
      (validate_file_moves st).1 = false
      ∧ ("Parent path is a file: " ++ par) ∈ (validate_file_moves st).2
      ∧ ("Parent path is a file: " ++ par)
          ∉ (main_run false none free st).tracker.errors) := by
  constructor
  · intro hd
    have hc := vfm_fold_conflict FILE_MOVES (true, []) (s, d) hmem hs hd
    refine ⟨hc.1, hc.2, ?_⟩
    intro hin
    rcases main_run_errors false none free st _ hin with ⟨dd, hdd⟩ | h1
    · exact conflict_msg_ne_mkdir s d dd hdd
    · exact conflict_msg_ne_handler s d h1
  · intro par hfind
    have hc := vfm_fold_parent FILE_MOVES (true, []) (s, d) par hmem hs hfind
    refine ⟨hc.1, hc.2, ?_⟩
    intro hin
    rcases main_run_errors false none free st _ hin with ⟨dd, hdd⟩ | h1
    · exact parent_msg_ne_mkdir par dd hdd
    · exact parent_msg_ne_handler par h1

def C7_state : FileSys :=
  { files := [("src/components/factions/types/ShipTypes.ts", "conflicting source"),
              ("src/types/ships/ShipTypes.ts", "conflicting destination"),
              ("src/components/factions/types/FactionTypes.ts", "movable")],
    dirs := ["src", "src/components", "src/components/factions"],
    backup := none }

set_option maxRecDepth 40000 in
set_option maxHeartbeats 8000000 in
/-- C7 (counterexample): on a state with a both-ends-present mapped pair
the validator logs the conflict and returns false, yet the run completes
successfully and the final report's enumerated error list is empty — the
conflict does not appear in the report, refuting that part of the claim. -/
theorem C7_counterexample :
    pathExists C7_state "src/components/factions/types/ShipTypes.ts" = true
    ∧ pathExists C7_state "src/types/ships/ShipTypes.ts" = true
    ∧ (validate_file_moves C7_state).1 = false
    ∧ ("Both source and destination exist: src/components/factions/types/ShipTypes.ts"
        ++ " -> " ++ "src/types/ships/ShipTypes.ts") ∈ (validate_file_moves C7_state).2
    ∧ (main_run false none 1000 C7_state).outcome = Outcome.success
    ∧ (main_run false none 1000 C7_state).tracker.errors = [] := by decide

/-- A state where a mapped destination's ancestor `src/types` is occupied
by a plain file. -/
def C7_parent_state : FileSys :=
  { files := [("src/components/factions/types/FactionTypes.ts", "movable"),
              ("src/types", "a plain file where a directory should be")],
    dirs := ["src", "src/components", "src/components/factions"],
    backup := none }

set_option maxRecDepth 40000 in
set_option maxHeartbeats 4000000 in
/-- Witness for the amended C7: the both-exist conflict at `C7_state` and
the destination-ancestor-is-a-plain-file conflict at `C7_parent_state`. -/
theorem C7_witness :
    ((validate_file_moves C7_state).1 = false
      ∧ ("Both source and destination exist: "
          ++ "src/components/factions/types/ShipTypes.ts"
          ++ " -> " ++ "src/types/ships/ShipTypes.ts") ∈ (validate_file_moves C7_state).2
      ∧ ("Both source and destination exist: "
          ++ "src/components/factions/types/ShipTypes.ts"
          ++ " -> " ++ "src/types/ships/ShipTypes.ts")
          ∉ (main_run false none 1000 C7_state).tracker.errors)
    ∧ ((validate_file_moves C7_parent_state).1 = false
      ∧ ("Parent path is a file: " ++ "src/types")
          ∈ (validate_file_moves C7_parent_state).2
      ∧ ("Parent path is a file: " ++ "src/types")
          ∉ (main_run false none 1000 C7_parent_state).tracker.errors) :=
  ⟨(C7_conflict_amended C7_state 1000 "src/components/factions/types/ShipTypes.ts"
      "src/types/ships/ShipTypes.ts" (by decide) (by decide)).1 (by decide),
    (C7_conflict_amended C7_parent_state 1000
      "src/components/factions/types/FactionTypes.ts"
      "src/types/factions/FactionTypes.ts" (by decide) (by decide)).2
      "src/types" (by decide)⟩

/-! ## Claim C3: rollback -/

theorem filter_not_filter_nil {α : Type} (p : α → Bool) :
    ∀ l : List α, (l.filter (fun a => !(p a))).filter p = [] := by
  intro l
  induction l with
  | nil => rfl
  | cons a t ih =>
    by_cases h : p a = true
    · simp [List.filter_cons, h, ih]
    · simp [List.filter_cons, h, ih]

theorem filter_filter_self {α : Type} (p : α → Bool) :
    ∀ l : List α, (l.filter p).filter p = l.filter p := by
  intro l
  induction l with
  | nil => rfl
  | cons a t ih =>
    by_cases h : p a = true
    · simp [List.filter_cons, h, ih]
    · simp [List.filter_cons, h, ih]

theorem add_error_total (t : ProgressTracker) (m : String) :
    (t.add_error m).total_operations = t.total_operations := rfl

theorem set_total_total (t : ProgressTracker) (n : Nat) :
    (t.set_total n).total_operations = n := rfl

theorem generate_report_none_iff {t : ProgressTracker} :
    generate_report t = none ↔ t.total_operations = 0 := by
  unfold generate_report
  by_cases h : t.total_operations = 0
  · simp [h]
  · simp [h]

/-- The state at the start of the move loop of a real run: backup taken,
skeleton created. -/
def pre_move_state (st : FileSys) : FileSys :=
  create_new_directories false (create_backup false st).1

/-- C3: when an unhandled exception escapes the move loop of a real run
after at least one successful move and before the loop completes, the run
ends rolled back: the `src` tree (files and directories) is restored to its
pre-run contents from the backup, and the backup itself is still present. -/
theorem C3_rollback (st : FileSys) (free k : Nat)
    (henv : validate_environment st = true)
    (hdisk : check_disk_space st free true = true)
    (hk1 : 1 ≤ k)
    (hk2 : k < (moves_needed (pre_move_state st)).length) :
    src_files (main_run false (some k) free st).st = src_files st
    ∧ src_dirs (main_run false (some k) free st).st = src_dirs st
    ∧ (main_run false (some k) free st).st.backup.isSome = true
    ∧ (main_run false (some k) free st).outcome = Outcome.rolledBack := by
  rw [main_run_go henv (show check_disk_space st free (!false) = true from hdisk) (some k)]
  have hcb1 : (create_backup false st).1
      = { st with backup := some (src_files st, src_dirs st) } := rfl
  have hcb2 : (create_backup false st).2 = true := rfl
  unfold migrate_and_finish
  rw [hcb1, hcb2]
  set stB : FileSys := { st with backup := some (src_files st, src_dirs st) } with hstB
  set st2 := create_new_directories false stB with hst2
  have hk2' : k < (moves_needed st2).length := hk2
  simp only [process_file_moves_some_lt false ProgressTracker.init hk2']
  set R := run_moves false ((moves_needed st2).take k) st2
      (ProgressTracker.init.set_total (moves_needed st2).length) with hR
  have hRb : R.1.backup = some (src_files st, src_dirs st) := by
    rw [hR, run_moves_backup, hst2, cnd_backup]
  have hrest : restore_from_backup false R.1
      = ({ files := R.1.files.filter (fun e => !strStarts e.1 "src/") ++ src_files st,
           dirs := R.1.dirs.filter (fun d => !(d == "src" || strStarts d "src/"))
              ++ src_dirs st,
           backup := R.1.backup }, true) := by
    unfold restore_from_backup
    rw [if_neg (by simp)]
    simp only [hRb]
  have htotR : (R.2.add_error "An error occurred during restructuring").total_operations
      = (moves_needed st2).length := by
    rw [add_error_total, hR, run_moves_total, set_total_total]
  have hne : ¬ (R.2.add_error "An error occurred during restructuring").total_operations
      = 0 := by
    rw [htotR]
    omega
  unfold handle_exception
  rw [if_pos (show (true && !false) = true from rfl)]
  rcases hg : generate_report (R.2.add_error "An error occurred during restructuring")
      with _ | rep
  · exact absurd (generate_report_none_iff.mp hg) hne
  · simp only [hg, hrest]
    refine ⟨?_, ?_, by simp [hRb], by simp⟩
    · show (R.1.files.filter (fun e => !strStarts e.1 "src/")
          ++ src_files st).filter (fun e => strStarts e.1 "src/") = src_files st
      rw [List.filter_append]
      have h1 : (R.1.files.filter (fun e => !strStarts e.1 "src/")).filter
          (fun e => strStarts e.1 "src/") = [] :=
        filter_not_filter_nil (fun e => strStarts e.1 "src/") R.1.files
      have h2 : (src_files st).filter (fun e => strStarts e.1 "src/") = src_files st :=
        filter_filter_self (fun e => strStarts e.1 "src/") st.files
      rw [h1, h2, List.nil_append]
    · show (R.1.dirs.filter (fun d => !(d == "src" || strStarts d "src/"))
          ++ src_dirs st).filter (fun d => d == "src" || strStarts d "src/") = src_dirs st
      rw [List.filter_append]
      have h1 : (R.1.dirs.filter (fun d => !(d == "src" || strStarts d "src/"))).filter
          (fun d => d == "src" || strStarts d "src/") = [] :=
        filter_not_filter_nil (fun d => d == "src" || strStarts d "src/") R.1.dirs
      have h2 : (src_dirs st).filter (fun d => d == "src" || strStarts d "src/")
          = src_dirs st :=
        filter_filter_self (fun d => d == "src" || strStarts d "src/") st.dirs
      rw [h1, h2, List.nil_append]

def C3_state : FileSys :=
  { files := [("src/components/factions/types/FactionTypes.ts", "f"),
              ("src/components/factions/types/ShipTypes.ts", "g")],
    dirs := ["src", "src/components", "src/components/factions"], backup := none }

set_option maxRecDepth 40000 in
set_option maxHeartbeats 4000000 in
/-- Witness for C3: two actionable moves, failure injected after the first;
the source tree is restored and the backup remains. -/
theorem C3_witness :
    src_files (main_run false (some 1) 1000 C3_state).st = src_files C3_state
    ∧ src_dirs (main_run false (some 1) 1000 C3_state).st = src_dirs C3_state
    ∧ (main_run false (some 1) 1000 C3_state).st.backup.isSome = true
    ∧ (main_run false (some 1) 1000 C3_state).outcome = Outcome.rolledBack :=
  C3_rollback C3_state 1000 1 (by decide) (by decide) (by decide) (by decide)

/-! ## Claim C1: the move-mapping invariant -/

/-- Dispatch for `migrate_and_finish` on the success path: once the move
phase returned normally and the report was produced, the result is the
success record (with the backup discarded when one was made). -/
theorem migrate_and_finish_ok_some (dry : Bool) (fa : Option Nat) (st1 : FileSys) (bc : Bool)
    (r : FileSys × ProgressTracker) (rep : FinalReport)
    (hpm : process_file_moves dry fa (create_new_directories dry st1) ProgressTracker.init
      = Except.ok r)
    (hg : generate_report (reorganize_styles dry r.1 r.2).2 = some rep) :
    migrate_and_finish dry fa st1 bc =
      { st := if !dry && bc && (reorganize_styles dry r.1 r.2).1.backup.isSome
              then { (reorganize_styles dry r.1 r.2).1 with backup := none }
              else (reorganize_styles dry r.1 r.2).1,
        tracker := (reorganize_styles dry r.1 r.2).2,
        outcome := Outcome.success, exitCode := 0 } := by
  unfold migrate_and_finish
  simp only [hpm, hg]

/-- Dispatch for `migrate_and_finish` when the report generation raises
(division by zero): the run falls into the exception handler. -/
theorem migrate_and_finish_ok_none (dry : Bool) (fa : Option Nat) (st1 : FileSys) (bc : Bool)
    (r : FileSys × ProgressTracker)
    (hpm : process_file_moves dry fa (create_new_directories dry st1) ProgressTracker.init
      = Except.ok r)
    (hg : generate_report (reorganize_styles dry r.1 r.2).2 = none) :
    migrate_and_finish dry fa st1 bc =
      handle_exception dry bc
        (if !dry && bc && (reorganize_styles dry r.1 r.2).1.backup.isSome
         then { (reorganize_styles dry r.1 r.2).1 with backup := none }
         else (reorganize_styles dry r.1 r.2).1)
        (reorganize_styles dry r.1 r.2).2 := by
  unfold migrate_and_finish
  simp only [hpm, hg]

theorem fsExists_congr {fs fs' : List (String × String)} {p q : String}
    (h : fsLookup fs p = fsLookup fs' q) : fsExists fs p = fsExists fs' q := by
  unfold fsExists
  rw [h]

theorem ite_backup_files (c : Prop) [Decidable c] (x : FileSys) :
    (if c then { x with backup := none } else x).files = x.files := by
  split <;> rfl


set_option maxHeartbeats 800000 in
/-- Core of the move-mapping invariant, stated over the state `st2` reached
after backup and skeleton creation: the move phase followed by the style
phase preserves a conflicted pair, keeps a missing pair missing, and keeps
exactly-one-side-present pairs at exactly one side present. -/
theorem C1_core (st2 : FileSys) (base : List (String × String))
    (R : FileSys × ProgressTracker) (s d : String)
    (hmem : (s, d) ∈ FILE_MOVES)
    (hMF2 : MappedFree st2)
    (hbase : st2.files = base)
    (hR : run_moves false (moves_needed st2) st2
        (ProgressTracker.init.set_total (moves_needed st2).length) = R) :
    ((fsExists base s = true ∧ fsExists base d = true) →
      fsLookup (reorganize_styles false R.1 R.2).1.files s = fsLookup base s
        ∧ fsLookup (reorganize_styles false R.1 R.2).1.files d = fsLookup base d)
    ∧ ((fsExists base s = false ∧ fsExists base d = false) →
      fsExists (reorganize_styles false R.1 R.2).1.files s = false
        ∧ fsExists (reorganize_styles false R.1 R.2).1.files d = false)
    ∧ (fsExists base s ≠ fsExists base d →
      fsExists (reorganize_styles false R.1 R.2).1.files s
        ≠ fsExists (reorganize_styles false R.1 R.2).1.files d) := by
  have hns : s ∉ st2.dirs := (hMF2 (s, d) hmem).1
  have hnd : d ∉ st2.dirs := (hMF2 (s, d) hmem).2
  have hpes : pathExists st2 s = fsExists base s := by
    rw [pathExists_eq_fsExists_of_not_dir hns, hbase]
  have hped : pathExists st2 d = fsExists base d := by
    rw [pathExists_eq_fsExists_of_not_dir hnd, hbase]
  have hsns : strStarts s "src/styles/" = false := (mapped_not_styles hmem).1
  have hdns : strStarts d "src/styles/" = false := (mapped_not_styles hmem).2
  have hchar : (s, d) ∈ moves_needed st2
      ↔ (fsExists base s = true ∧ fsExists base d = false) := by
    rw [mem_moves_needed]
    constructor
    · rintro ⟨-, h1, h2⟩
      refine ⟨?_, ?_⟩
      · rw [← hpes]; exact h1
      · rw [← hped]; exact h2
    · rintro ⟨h1, h2⟩
      refine ⟨hmem, ?_, ?_⟩
      · show pathExists st2 s = true
        rw [hpes]; exact h1
      · show pathExists st2 d = false
        rw [hped]; exact h2
  have huns : (s, d) ∉ moves_needed st2 →
      fsLookup (reorganize_styles false R.1 R.2).1.files s = fsLookup base s
        ∧ fsLookup (reorganize_styles false R.1 R.2).1.files d = fsLookup base d := by
    intro hnm
    have hother : ∀ p, p = s ∨ p = d → ∀ m ∈ moves_needed st2, p ≠ m.1 ∧ p ≠ m.2 := by
      intro p hp m hmML
      have hmf := moves_needed_mem_FILE_MOVES hmML
      have hne : (s, d) ≠ m := fun he => hnm (he ▸ hmML)
      have hgp := goodPair_of_mem hmem hmf hne
      rcases hp with rfl | rfl
      · exact ⟨hgp.1, hgp.2.2.1⟩
      · exact ⟨hgp.2.2.2, hgp.2.1⟩
    constructor
    · rw [reorganize_styles_lookup_other hsns false R.1 R.2, ← hR,
        run_moves_lookup_other false (moves_needed st2) s st2 _ (hother s (Or.inl rfl)),
        hbase]
    · rw [reorganize_styles_lookup_other hdns false R.1 R.2, ← hR,
        run_moves_lookup_other false (moves_needed st2) d st2 _ (hother d (Or.inr rfl)),
        hbase]
  refine ⟨?_, ?_, ?_⟩
  · rintro ⟨hs1, hd1⟩
    have hnm : (s, d) ∉ moves_needed st2 := by
      intro hin
      have h2 := (hchar.mp hin).2
      rw [hd1] at h2
      exact Bool.noConfusion h2
    exact huns hnm
  · rintro ⟨hs1, hd1⟩
    have hnm : (s, d) ∉ moves_needed st2 := by
      intro hin
      have h1 := (hchar.mp hin).1
      rw [hs1] at h1
      exact Bool.noConfusion h1
    have hu := huns hnm
    constructor
    · rw [fsExists_congr hu.1]; exact hs1
    · rw [fsExists_congr hu.2]; exact hd1
  · intro hne
    cases hs1 : fsExists base s <;> cases hd1 : fsExists base d
    · rw [hs1, hd1] at hne
      exact absurd rfl hne
    · have hnm : (s, d) ∉ moves_needed st2 := by
        intro hin
        have h1 := (hchar.mp hin).1
        rw [hs1] at h1
        exact Bool.noConfusion h1
      have hu := huns hnm
      rw [fsExists_congr hu.1, fsExists_congr hu.2, hs1, hd1]
      decide
    · have hin : (s, d) ∈ moves_needed st2 := hchar.mpr ⟨hs1, hd1⟩
      have hpre : ∀ m ∈ moves_needed st2,
          fsExists st2.files m.1 = true ∧ fsExists st2.files m.2 = false := by
        intro m hmML
        have h3 := mem_moves_needed.mp hmML
        have hmf := hMF2 m h3.1
        constructor
        · rw [← pathExists_eq_fsExists_of_not_dir hmf.1]; exact h3.2.1
        · rw [← pathExists_eq_fsExists_of_not_dir hmf.2]; exact h3.2.2
      have hres := run_moves_each (moves_needed st2) st2
        (ProgressTracker.init.set_total (moves_needed st2).length)
        (moves_needed_pairwise st2) hpre (s, d) hin
      rw [hR] at hres
      rcases hres with ⟨hl, he⟩ | ⟨he, hl⟩
      · have hl' : fsLookup R.1.files s = fsLookup st2.files s := hl
        have he' : fsExists R.1.files d = false := he
        rw [fsExists_congr (reorganize_styles_lookup_other hsns false R.1 R.2),
          fsExists_congr (reorganize_styles_lookup_other hdns false R.1 R.2),
          fsExists_congr hl', hbase, hs1, he']
        decide
      · have he' : fsExists R.1.files s = false := he
        have hl' : fsLookup R.1.files d = fsLookup st2.files s := hl
        rw [fsExists_congr (reorganize_styles_lookup_other hsns false R.1 R.2),
          fsExists_congr (reorganize_styles_lookup_other hdns false R.1 R.2),
          he', fsExists_congr hl', hbase, hs1]
        decide
    · rw [hs1, hd1] at hne
      exact absurd rfl hne

set_option maxHeartbeats 800000 in
/-- **C1**: for every entry `(s, d)` of the move mapping, after a successful
non-simulate run: a pair already in conflict (both existed) is left unchanged,
a pair with neither side present still has neither side present, and a pair
with exactly one side present still has exactly one side present (the move,
when actionable, transfers existence from source to destination).  The
hypothesis `MappedFree st` says no mapped path is a directory in the starting
state, so `os.path.exists` coincides with file existence on mapped paths. -/
theorem C1_move_mapping_invariant (st : FileSys) (free : Nat) (s d : String)
    (hmem : (s, d) ∈ FILE_MOVES)
    (hfree : MappedFree st)
    (hsuccess : (main_run false none free st).outcome = Outcome.success) :
    ((fsExists st.files s = true ∧ fsExists st.files d = true) →
      fsLookup (main_run false none free st).st.files s = fsLookup st.files s
        ∧ fsLookup (main_run false none free st).st.files d = fsLookup st.files d)
    ∧ ((fsExists st.files s = false ∧ fsExists st.files d = false) →
      fsExists (main_run false none free st).st.files s = false
        ∧ fsExists (main_run false none free st).st.files d = false)
    ∧ (fsExists st.files s ≠ fsExists st.files d →
      fsExists (main_run false none free st).st.files s
        ≠ fsExists (main_run false none free st).st.files d) := by
  by_cases henv : validate_environment st = true
  case neg =>
    exfalso
    have henv' : validate_environment st = false := by simpa using henv
    rw [main_run_env_fail henv' false none free] at hsuccess
    exact Outcome.noConfusion hsuccess
  by_cases hdisk : check_disk_space st free (!false) = true
  case neg =>
    exfalso
    have hdisk' : check_disk_space st free (!false) = false := by simpa using hdisk
    rw [main_run_disk_fail henv hdisk' none] at hsuccess
    exact Outcome.noConfusion hsuccess
  have hc1 : (create_backup false st).1
      = { st with backup := some (src_files st, src_dirs st) } := rfl
  have hc2 : (create_backup false st).2 = true := rfl
  have hmain : main_run false none free st
      = migrate_and_finish false none
          { st with backup := some (src_files st, src_dirs st) } true := by
    rw [main_run_go henv hdisk none, hc1, hc2]
  obtain ⟨st2, hst2⟩ : ∃ x, create_new_directories false
      { st with backup := some (src_files st, src_dirs st) } = x := ⟨_, rfl⟩
  have hpm := process_file_moves_none false st2 ProgressTracker.init
  obtain ⟨R, hR⟩ : ∃ x, run_moves false (moves_needed st2) st2
      (ProgressTracker.init.set_total (moves_needed st2).length) = x := ⟨_, rfl⟩
  rw [hR] at hpm
  rw [← hst2] at hpm
  rcases hg : generate_report (reorganize_styles false R.1 R.2).2 with _ | rep
  · exfalso
    rw [hmain, migrate_and_finish_ok_none false none
      { st with backup := some (src_files st, src_dirs st) } true R hpm hg] at hsuccess
    exact absurd hsuccess (handle_exception_outcome _ _ _ _)
  · have hfin : (main_run false none free st).st.files
        = (reorganize_styles false R.1 R.2).1.files := by
      rw [hmain, migrate_and_finish_ok_some false none
        { st with backup := some (src_files st, src_dirs st) } true R rep hpm hg]
      exact ite_backup_files _ _
    have hMFB : MappedFree { st with backup := some (src_files st, src_dirs st) } := hfree
    have hMF2 : MappedFree st2 := by
      rw [← hst2]
      exact mappedFree_cnd hMFB false
    have hbase : st2.files = st.files := by
      rw [← hst2, cnd_files]
    have hcore := C1_core st2 st.files R s d hmem hMF2 hbase hR
    rw [hfin]
    exact hcore

/-- A minimal valid project root holding one actionable mapped source. -/
def C1_state : FileSys :=
  { files := [("src/components/factions/types/FactionTypes.ts", "faction types")],
    dirs := ["src", "src/components", "src/components/factions"], backup := none }

set_option maxRecDepth 40000 in
set_option maxHeartbeats 8000000 in
theorem C1_witness :
    fsExists C1_state.files "src/components/factions/types/FactionTypes.ts"
      ≠ fsExists C1_state.files "src/types/factions/FactionTypes.ts"
    ∧ fsExists (main_run false none 1000 C1_state).st.files
        "src/components/factions/types/FactionTypes.ts"
      ≠ fsExists (main_run false none 1000 C1_state).st.files
        "src/types/factions/FactionTypes.ts" :=
  ⟨by decide,
    (C1_move_mapping_invariant C1_state 1000
      "src/components/factions/types/FactionTypes.ts"
      "src/types/factions/FactionTypes.ts"
      (by decide) (by unfold MappedFree; decide) (by decide)).2.2 (by decide)⟩

/-! ## Claim C8: idempotence of a second run -/

/-- A valid project root with one actionable mapped move, from which the
first non-simulate run completes successfully. -/
def C8_state : FileSys :=
  { files := [("src/components/factions/types/FactionTypes.ts", "faction types")],
    dirs := ["src", "src/components", "src/components/factions"], backup := none }

/-- The filesystem left behind by the successful first run. -/
def C8_state2 : FileSys := (main_run false none 1000 C8_state).st

set_option maxRecDepth 40000 in
set_option maxHeartbeats 8000000 in
/-- C8: after a successful non-simulate run, a second non-simulate run finds
no actionable moves and no loose stylesheets, so its operation total is zero
and `generate_report` divides by zero: instead of a clean zero-error no-op
the second run records an error, dies with the uncaught exception (exit
status 1), and deletes the backup it just made — though it indeed changes
no files or directories. -/
theorem C8_second_run_crashes :
    (main_run false none 1000 C8_state).outcome = Outcome.success
    ∧ (main_run false none 1000 C8_state).tracker.errors = []
    ∧ (main_run false none 1000 C8_state2).st = C8_state2
    ∧ (main_run false none 1000 C8_state2).tracker.total_operations = 0
    ∧ (main_run false none 1000 C8_state2).tracker.errors
        = ["An error occurred during restructuring"]
    ∧ (main_run false none 1000 C8_state2).outcome = Outcome.crashed
    ∧ (main_run false none 1000 C8_state2).exitCode = 1 := by decide
